import Mathlib

/-!
# Cart reconciliation (`src/contexts/CartContext.jsx`)

A shallow embedding of the cart provider: its React state (`cartItems`, `loading`, `user`),
the calls it sends to the remote data gateway, and the rows the gateway persists.

Conventions of the embedding
* every `await supabase.from('cart_items')...` takes a Boolean that says whether the gateway
  answered without `error`; the call is recorded in `World.calls` either way;
* a `try` block is a function that returns `Except JsError α × World` (the state reached is
  kept when the block throws); the surrounding function is its `catch` handler;
* JavaScript numbers that hold quantities and prices are integers (`Int`);
* a call runs to completion on the state of the latest render, so the closure values
  `cartItems` and `user` are the fields of the `World` the call starts from.
-/

namespace CartContext

/-! ## Data model -/

/-- A row of `products`, with the columns the cart code reads. -/
structure Product where
  id : Nat
  sale_price : Option Int
  sellauth_product_id : Option String := none
  sellauth_variant_id : Option String := none
  deriving DecidableEq, Repr

/-- A row of `product_variants`, with the columns the cart code reads. -/
structure ProductVariant where
  id : Nat
  sale_price : Option Int
  sellauth_product_id : Option String := none
  sellauth_variant_id : Option String := none
  deriving DecidableEq, Repr

/-- A persisted row of `cart_items`. -/
structure CartRow where
  id : Nat
  user_id : Nat
  product_id : Nat
  variant_id : Option Nat
  quantity : Int
  deriving DecidableEq, Repr

/-- An element of `cartItems`: a `cart_items` row with the joined `product` and `variant`
records of the select in `loadCartItems`. -/
structure CartItem where
  id : Nat
  user_id : Nat
  product_id : Nat
  variant_id : Option Nat
  quantity : Int
  product : Option Product
  variant : Option ProductVariant
  deriving DecidableEq, Repr

/-- The authenticated user object (`session.user`). -/
structure User where
  id : Nat
  deriving DecidableEq, Repr

/-- The session object passed to the auth subscription. -/
structure Session where
  user : Option User
  deriving DecidableEq, Repr

/-- The events of `supabase.auth.onAuthStateChange`. -/
inductive AuthEvent where
  | INITIAL_SESSION
  | SIGNED_IN
  | SIGNED_OUT
  | TOKEN_REFRESHED
  | USER_UPDATED
  deriving DecidableEq, Repr

/-- A request sent to the gateway by the cart provider. -/
inductive GatewayCall where
  | select (user_id : Nat)
  | insert (user_id : Nat) (product_id : Nat) (variant_id : Option Nat) (quantity : Int)
  | update (id : Nat) (quantity : Int)
  | deleteById (id : Nat)
  | deleteByUser (user_id : Nat)
  deriving DecidableEq, Repr

/-- What a `try` block can throw. -/
inductive JsError where
  | gateway
  | typeError
  deriving DecidableEq, Repr

/-- The remote store. `cart_items` is kept newest first, which is the order
`.order('created_at', { ascending: false })` returns. -/
structure Gateway where
  cart_items : List CartRow
  products : List Product
  product_variants : List ProductVariant
  nextId : Nat
  deriving DecidableEq, Repr

/-- The provider state together with the gateway and the trace of what was sent to it. -/
structure World where
  cartItems : List CartItem
  loading : Bool
  user : Option User
  gateway : Gateway
  calls : List GatewayCall
  alerts : List String
  deriving DecidableEq, Repr

/-! ## The gateway -/

/-- Modelled from the spec: the join `*, product:products(*), variant:product_variants(*)` of the
remote store (the store itself is not part of the sources): the row with the product and the
variant its foreign keys point to. -/
def Gateway.join (g : Gateway) (r : CartRow) : CartItem :=
  { id := r.id
    user_id := r.user_id
    product_id := r.product_id
    variant_id := r.variant_id
    quantity := r.quantity
    product := g.products.find? (fun p => decide (p.id = r.product_id))
    variant := r.variant_id.bind (fun v => g.product_variants.find? (fun x => decide (x.id = v))) }

/-- Modelled from the spec: the reload query of the remote store, the line items of one user
joined with product and variant records, newest first. -/
def Gateway.select (g : Gateway) (user_id : Nat) : List CartItem :=
  (g.cart_items.filter (fun r => decide (r.user_id = user_id))).map g.join

/-- Modelled from the spec: the effect of an accepted request on the remote store. An insert
creates a row under a fresh id, an update changes the quantity of the rows with the given id,
a delete removes the rows that match its filter, a select changes nothing. -/
def Gateway.apply (g : Gateway) : GatewayCall → Gateway
  | .select _ => g
  | .insert user_id product_id variant_id quantity =>
    { g with
      cart_items :=
        { id := g.nextId, user_id := user_id, product_id := product_id,
          variant_id := variant_id, quantity := quantity } :: g.cart_items
      nextId := g.nextId + 1 }
  | .update id quantity =>
    { g with
      cart_items :=
        g.cart_items.map (fun r => if r.id = id then { r with quantity := quantity } else r) }
  | .deleteById id =>
    { g with cart_items := g.cart_items.filter (fun r => decide (r.id ≠ id)) }
  | .deleteByUser user_id =>
    { g with cart_items := g.cart_items.filter (fun r => decide (r.user_id ≠ user_id)) }

/-- One awaited gateway request: it is recorded, it takes effect when the gateway accepts it,
and the returned flag is the `error` of the response. A rejected request changes nothing. -/
def request (ok : Bool) (c : GatewayCall) (w : World) : Bool × World :=
  (!ok, { w with
            calls := w.calls ++ [c]
            gateway := if ok then w.gateway.apply c else w.gateway })

/-! ## The provider (`CartProvider`) -/

/-- The source's `loadCartItems` (lines 37-58). -/
def loadCartItems (selectOk : Bool) (w : World) : World :=
  match w.user with
  | none => w
  | some user =>
    let w1 := { w with loading := true }
    let (error, w2) := request selectOk (.select user.id) w1
    -- `if (error) throw error` is caught by the `catch` of the same function
    let w3 := if error then w2 else { w2 with cartItems := w2.gateway.select user.id }
    { w3 with loading := false }

/-- The `try` block of `addToCart` (lines 66-92). -/
def addToCartTry (writeOk reloadOk : Bool) (user : User) (productId : Nat)
    (variantId : Option Nat) (quantity : Int) (w : World) : Except JsError Bool × World :=
  match w.cartItems.find?
      (fun item => decide (item.product_id = productId ∧ item.variant_id = variantId)) with
  | some existingItem =>
    let (error, w1) :=
      request writeOk (.update existingItem.id (existingItem.quantity + quantity)) w
    if error then (.error .gateway, w1) else (.ok true, loadCartItems reloadOk w1)
  | none =>
    let (error, w1) := request writeOk (.insert user.id productId variantId quantity) w
    if error then (.error .gateway, w1) else (.ok true, loadCartItems reloadOk w1)

/-- The source's `addToCart` (lines 60-97); the defaults `variantId = null, quantity = 1` are
passed explicitly. -/
def addToCart (writeOk reloadOk : Bool) (productId : Nat) (variantId : Option Nat)
    (quantity : Int) (w : World) : Except JsError Bool × World :=
  match w.user with
  | none => (.ok false, { w with alerts := w.alerts ++ ["Please log in to add items to cart"] })
  | some user =>
    match addToCartTry writeOk reloadOk user productId variantId quantity w with
    | (.ok r, w1) => (.ok r, w1)
    | (.error _, w1) => (.ok false, w1)

/-- The `try` block of `removeFromCart` (lines 100-107). -/
def removeFromCartTry (writeOk reloadOk : Bool) (cartItemId : Nat) (w : World) :
    Except JsError Unit × World :=
  let (error, w1) := request writeOk (.deleteById cartItemId) w
  if error then (.error .gateway, w1) else (.ok (), loadCartItems reloadOk w1)

/-- The source's `removeFromCart` (lines 99-111). -/
def removeFromCart (writeOk reloadOk : Bool) (cartItemId : Nat) (w : World) :
    Except JsError Unit × World :=
  match removeFromCartTry writeOk reloadOk cartItemId w with
  | (.ok r, w1) => (.ok r, w1)
  | (.error _, w1) => (.ok (), w1)

/-- The `try` block of `updateQuantity` (lines 119-126). -/
def updateQuantityTry (writeOk reloadOk : Bool) (cartItemId : Nat) (quantity : Int)
    (w : World) : Except JsError Unit × World :=
  let (error, w1) := request writeOk (.update cartItemId quantity) w
  if error then (.error .gateway, w1) else (.ok (), loadCartItems reloadOk w1)

/-- The source's `updateQuantity` (lines 113-130). -/
def updateQuantity (writeOk reloadOk : Bool) (cartItemId : Nat) (quantity : Int)
    (w : World) : Except JsError Unit × World :=
  if quantity ≤ 0 then
    match removeFromCart writeOk reloadOk cartItemId w with
    | (.ok _, w1) => (.ok (), w1)
    | (.error e, w1) => (.error e, w1)
  else
    match updateQuantityTry writeOk reloadOk cartItemId quantity w with
    | (.ok r, w1) => (.ok r, w1)
    | (.error _, w1) => (.ok (), w1)

/-- The `try` block of `clearCart` (lines 133-140). Reading `user.id` of a null `user` throws
while the arguments of `.eq` are evaluated, before the request is sent. -/
def clearCartTry (writeOk : Bool) (w : World) : Except JsError Unit × World :=
  match w.user with
  | none => (.error .typeError, w)
  | some user =>
    let (error, w1) := request writeOk (.deleteByUser user.id) w
    if error then (.error .gateway, w1) else (.ok (), { w1 with cartItems := [] })

/-- The source's `clearCart` (lines 132-144). -/
def clearCart (writeOk : Bool) (w : World) : Except JsError Unit × World :=
  match clearCartTry writeOk w with
  | (.ok r, w1) => (.ok r, w1)
  | (.error _, w1) => (.ok (), w1)

/-- JavaScript `a || b` on a price that may be missing: `null`, `undefined` and `0` are falsy. -/
def orElse (a : Option Int) (b : Option Int) : Option Int :=
  match a with
  | some p => if p = 0 then b else some p
  | none => b

/-- The `price` of the reducer of `getTotalPrice` (line 148):
`item.variant?.sale_price || item.product?.sale_price || 0`. -/
def price (item : CartItem) : Int :=
  match orElse (orElse (item.variant.bind (fun v => v.sale_price))
      (item.product.bind (fun p => p.sale_price))) (some 0) with
  | some p => p
  | none => 0

/-- The source's `getTotalPrice` (lines 146-151). -/
def getTotalPrice (cartItems : List CartItem) : Int :=
  cartItems.foldl (fun total item => total + price item * item.quantity) 0

/-- The source's `getTotalItems` (lines 153-155). -/
def getTotalItems (cartItems : List CartItem) : Int :=
  cartItems.foldl (fun total item => total + item.quantity) 0

/-- The callback given to `supabase.auth.onAuthStateChange` (lines 18-23). -/
def onAuthStateChange (event : AuthEvent) (session : Option Session) (w : World) : World :=
  let w1 := { w with user := session.bind (fun s => s.user) }
  if event = .SIGNED_OUT then { w1 with cartItems := [] } else w1

/-- The effect on `[user]` (lines 28-35). -/
def userEffect (selectOk : Bool) (w : World) : World :=
  match w.user with
  | some _ => loadCartItems selectOk w
  | none => { w with cartItems := [], loading := false }

end CartContext

namespace CartContext

/-! ## Sample states -/

/-- A store with two products, one variant and no cart rows. -/
def sampleGateway : Gateway :=
  { cart_items := []
    products := [{ id := 1, sale_price := some 10 }, { id := 2, sale_price := some 40 }]
    product_variants := [{ id := 7, sale_price := some 25 }]
    nextId := 1 }

/-- The provider of user 1 with an empty cart, after the initial load. -/
def signedInWorld : World :=
  { cartItems := [], loading := false, user := some { id := 1 }, gateway := sampleGateway,
    calls := [], alerts := [] }

/-- The provider with no authenticated user, over a store that holds one row of user 1. -/
def anonymousWorld : World :=
  { cartItems := [], loading := false, user := none
    gateway := { sampleGateway with
      cart_items := [{ id := 5, user_id := 1, product_id := 1, variant_id := none, quantity := 2 }]
      nextId := 6 }
    calls := [], alerts := [] }

end CartContext

namespace CartContext

/-! ## Specification-side definitions -/

/-- The nullish coalescing `a ?? b` on a price that may be missing: only `null` and `undefined`
fall through. -/
def nullish (a : Option Int) (b : Option Int) : Option Int :=
  match a with
  | some p => some p
  | none => b

/-- The price of a line item as the specification words it:
`variant.sale_price ?? product.sale_price ?? 0`. -/
def specPrice (item : CartItem) : Int :=
  match nullish (nullish (item.variant.bind (fun v => v.sale_price))
      (item.product.bind (fun p => p.sale_price))) (some 0) with
  | some p => p
  | none => 0

/-- The total of the specification: the sum over the cache of `specPrice * quantity`. -/
def totalPriceSpec (cartItems : List CartItem) : Int :=
  (cartItems.map (fun item => specPrice item * item.quantity)).sum

/-- The sale price of the joined variant, when there is a variant and it has one. -/
def variantSalePrice (item : CartItem) : Option Int :=
  item.variant.bind (fun v => v.sale_price)

/-- The sale price of the joined product, when there is a product and it has one. -/
def productSalePrice (item : CartItem) : Option Int :=
  item.product.bind (fun p => p.sale_price)

/-- The calls sent between the state `w` and the later state `w1`. -/
def newCalls (w w1 : World) : List GatewayCall :=
  w1.calls.drop w.calls.length

/-- Whether a request writes to the store. -/
def GatewayCall.isWrite : GatewayCall → Bool
  | .select _ => false
  | _ => true

/-- Whether a request is a quantity update. -/
def GatewayCall.isUpdate : GatewayCall → Bool
  | .update _ _ => true
  | _ => false

/-- The state `w1` comes from `w` by at most one request, with the cache, the user and the
store as they were. -/
def OnlyOneRequest (w w1 : World) : Prop :=
  w1.cartItems = w.cartItems ∧ w1.user = w.user ∧ w1.gateway = w.gateway ∧
    ∃ cs, w1.calls = w.calls ++ cs ∧ cs.length ≤ 1

/-- Line item A of the specification's scenario: product A at 10, no variant, quantity 2. -/
def scenarioItemA : CartItem :=
  { id := 1, user_id := 1, product_id := 1, variant_id := none, quantity := 2
    product := some { id := 1, sale_price := some 10 }, variant := none }

/-- Line item B of the specification's scenario: product B, variant V1 at 25, quantity 1. -/
def scenarioItemB : CartItem :=
  { id := 2, user_id := 1, product_id := 2, variant_id := some 7, quantity := 1
    product := some { id := 2, sale_price := some 40 }
    variant := some { id := 7, sale_price := some 25 } }

/-- A line item whose variant has a sale price of 0 while its product sells at 10. -/
def freeVariantItem : CartItem :=
  { id := 3, user_id := 1, product_id := 1, variant_id := some 8, quantity := 1
    product := some { id := 1, sale_price := some 10 }
    variant := some { id := 8, sale_price := some 0 } }

/-- Successive `addToCart` calls for one (productId, variantId) pair, each started on the state
the call before it left, with every gateway request accepted. -/
def addAll (productId : Nat) (variantId : Option Nat) : List Int → World → World
  | [], w => w
  | quantity :: rest, w =>
    addAll productId variantId rest (addToCart true true productId variantId quantity w).2

/-- A call of one of the four mutating functions of the provider. -/
inductive CartAction where
  | addToCart (productId : Nat) (variantId : Option Nat) (quantity : Int)
  | removeFromCart (cartItemId : Nat)
  | updateQuantity (cartItemId : Nat) (quantity : Int)
  | clearCart
  deriving DecidableEq, Repr

/-- A call together with the fate of its gateway requests: whether the write is accepted and
whether the reload after it is. -/
structure Step where
  action : CartAction
  writeOk : Bool
  reloadOk : Bool
  deriving DecidableEq, Repr

/-- The state after one call. -/
def Step.run (s : Step) (w : World) : World :=
  match s.action with
  | .addToCart productId variantId quantity =>
    (addToCart s.writeOk s.reloadOk productId variantId quantity w).2
  | .removeFromCart cartItemId => (removeFromCart s.writeOk s.reloadOk cartItemId w).2
  | .updateQuantity cartItemId quantity =>
    (updateQuantity s.writeOk s.reloadOk cartItemId quantity w).2
  | .clearCart => (clearCart s.writeOk w).2

/-- The state after a sequence of calls, each completing before the next starts. -/
def runSteps : List Step → World → World
  | [], w => w
  | s :: rest, w => runSteps rest (s.run w)

/-- The persisted rows of one user. -/
def Gateway.rowsOf (g : Gateway) (user_id : Nat) : List CartRow :=
  g.cart_items.filter (fun r => decide (r.user_id = user_id))

/-- The (product, variant) pairs of the persisted rows of one user, one entry per row. -/
def Gateway.pairsOf (g : Gateway) (user_id : Nat) : List (Nat × Option Nat) :=
  (g.rowsOf user_id).map (fun r => (r.product_id, r.variant_id))

/-- The uniqueness invariant: no (product, variant) pair occurs in two persisted rows of the
user. -/
def UniquePairs (g : Gateway) (user_id : Nat) : Prop :=
  (g.pairsOf user_id).Nodup

instance (g : Gateway) (user_id : Nat) : Decidable (UniquePairs g user_id) := by
  unfold UniquePairs
  infer_instance

/-- The user is signed in, the cache is empty and the store holds no row of the user. -/
def EmptyCart (w : World) (user : User) : Prop :=
  w.user = some user ∧ w.cartItems = [] ∧ w.gateway.rowsOf user.id = []

/-- The cache is what a reload would return and the persisted rows of the user are unique per
(product, variant) pair. -/
def InSync (w : World) (user : User) : Prop :=
  w.user = some user ∧ w.cartItems = w.gateway.select user.id ∧ UniquePairs w.gateway user.id

/-- Two calls of `addToCart(1, null, 1)` whose inserts are accepted and whose reloads fail. -/
def staleReloadSteps : List Step :=
  [{ action := .addToCart 1 none 1, writeOk := true, reloadOk := false },
   { action := .addToCart 1 none 1, writeOk := true, reloadOk := false }]

/-- Calls of all four kinds by user 1, one of them with a rejected write, every reload
accepted. -/
def mixedSteps : List Step :=
  [{ action := .addToCart 1 none 1, writeOk := true, reloadOk := true },
   { action := .addToCart 1 none 2, writeOk := false, reloadOk := true },
   { action := .addToCart 2 (some 7) 1, writeOk := true, reloadOk := true },
   { action := .updateQuantity 1 5, writeOk := true, reloadOk := true },
   { action := .removeFromCart 2, writeOk := true, reloadOk := true },
   { action := .addToCart 1 none 1, writeOk := true, reloadOk := true },
   { action := .clearCart, writeOk := false, reloadOk := true }]

end CartContext

/-!
# The checkout widget loader (`src/lib/sellauth.js`)

The module state (`sellAuthLoadPromise`), the parts of the page it touches (the global
`window.sellAuthEmbed`, the script elements of the document, timers) and a clock in
milliseconds. A promise is an index into `Loader.promises`. Timers registered with
`setInterval` and `setTimeout` fire when the clock reaches their due time, in the order they
were registered.
-/

namespace SellAuth

/-- The state of a promise. -/
inductive PromiseState where
  | pending
  | resolved
  | rejected (message : String)
  deriving DecidableEq, Repr

/-- The callbacks `initializeSellAuth` registers: the capability check of `setInterval`
(lines 18-23 and 37-42) and the deadline of `setTimeout` (lines 25-30 and 44-49). -/
inductive TimerTask where
  | check (promise : Nat)
  | deadline (promise : Nat) (interval : Nat) (message : String)
  deriving DecidableEq, Repr

/-- A registered timer; `period` is set for an interval. -/
structure Timer where
  id : Nat
  due : Nat
  period : Option Nat
  task : TimerTask
  deriving DecidableEq, Repr

/-- A script element of the document: whether its `src` contains `sellauth.com` (what the
selector `script[src*="sellauth.com"]` tests), and the promise its `onload` and `onerror`
handlers settle when it is the element of lines 32-56. -/
structure Script where
  matchesSelector : Bool
  promise : Option Nat
  deriving DecidableEq, Repr

/-- The module and page state the loader works on. -/
structure Loader where
  now : Nat
  sellAuthEmbed : Bool
  sellAuthLoadPromise : Option Nat
  promises : List PromiseState
  scripts : List Script
  timers : List Timer
  nextTimer : Nat
  deriving DecidableEq, Repr

/-- What happens around the loader: a millisecond passes, a script element fires `load` or
`error`, the widget script sets or removes the global `window.sellAuthEmbed`. -/
inductive Event where
  | tick
  | scriptLoad (index : Nat)
  | scriptError (index : Nat)
  | capabilityAppears
  | capabilityRemoved
  deriving DecidableEq, Repr

/-- `resolve()` and `reject(...)`: only a pending promise changes state. -/
def Loader.settle (l : Loader) (promise : Nat) (s : PromiseState) : Loader :=
  if l.promises[promise]? = some .pending then
    { l with promises := l.promises.set promise s }
  else l

/-- `clearInterval` / the removal of a timeout that has fired. -/
def Loader.clearTimer (l : Loader) (id : Nat) : Loader :=
  { l with timers := l.timers.filter (fun t => decide (t.id ≠ id)) }

/-- `setInterval` (with a period) and `setTimeout` (without). -/
def Loader.addTimer (l : Loader) (delay : Nat) (period : Option Nat) (task : TimerTask) :
    Loader :=
  { l with
    timers := l.timers ++
      [{ id := l.nextTimer, due := l.now + delay, period := period, task := task }]
    nextTimer := l.nextTimer + 1 }

/-- The polling of lines 18-30 (limit 10000) and of lines 37-49 (limit 5000): an interval of
100 ms that checks the capability, and a timeout that clears it and rejects. -/
def Loader.startPolling (l : Loader) (promise : Nat) (limit : Nat) (message : String) :
    Loader :=
  (l.addTimer 100 (some 100) (.check promise)).addTimer limit none
    (.deadline promise l.nextTimer message)

/-- A new promise in the given state; the result is its index. -/
def Loader.newPromise (l : Loader) (s : PromiseState) : Nat × Loader :=
  (l.promises.length, { l with promises := l.promises ++ [s] })

/-- The source's `initializeSellAuth` (lines 3-61), in a browser (`window` is defined). The
result is the promise returned. -/
def initializeSellAuth (l : Loader) : Nat × Loader :=
  if l.sellAuthEmbed then l.newPromise .resolved
  else
    match l.sellAuthLoadPromise with
    | some promise => (promise, l)
    | none =>
      let (promise, l1) := l.newPromise .pending
      let l2 :=
        if l1.scripts.any (fun s => s.matchesSelector) then
          l1.startPolling promise 10000 "SellAuth script timeout"
        else
          { l1 with scripts := l1.scripts ++ [{ matchesSelector := true, promise := some promise }] }
      (promise, { l2 with sellAuthLoadPromise := some promise })

/-- The body of a timer callback. -/
def Loader.runTask (l : Loader) (t : Timer) : Loader :=
  match t.task with
  | .check promise =>
    if l.sellAuthEmbed then (l.clearTimer t.id).settle promise .resolved else l
  | .deadline promise interval message =>
    let l1 := l.clearTimer interval
    if l1.sellAuthEmbed then l1 else l1.settle promise (.rejected message)

/-- A due timer fires unless it was cleared in the meantime: an interval is re-armed, a timeout
is removed, and the callback runs. -/
def Loader.fire (l : Loader) (t : Timer) : Loader :=
  if l.timers.any (fun x => decide (x.id = t.id)) then
    match t.period with
    | some period =>
      Loader.runTask
        { l with
          timers := l.timers.map
            (fun x => if x.id = t.id then { x with due := x.due + period } else x) } t
    | none => (l.clearTimer t.id).runTask t
  else l

/-- One millisecond passes and the timers that are due fire in the order of registration. -/
def Loader.tick (l : Loader) : Loader :=
  (l.timers.filter (fun t => decide (t.due = l.now + 1))).foldl Loader.fire
    { l with now := l.now + 1 }

/-- The effect of an event. `scriptLoad` and `scriptError` run the handlers of lines 36-50 and
52-54 when the element has them. -/
def Loader.step (l : Loader) : Event → Loader
  | .tick => l.tick
  | .scriptLoad index =>
    match (l.scripts[index]?).bind (fun s => s.promise) with
    | some promise => l.startPolling promise 5000 "SellAuth embed not initialized"
    | none => l
  | .scriptError index =>
    match (l.scripts[index]?).bind (fun s => s.promise) with
    | some promise => l.settle promise (.rejected "Failed to load SellAuth script")
    | none => l
  | .capabilityAppears => { l with sellAuthEmbed := true }
  | .capabilityRemoved => { l with sellAuthEmbed := false }

/-- The state after `n` milliseconds without any other event. -/
def Loader.ticks : Nat → Loader → Loader
  | 0, l => l
  | n + 1, l => Loader.ticks n l.tick

/-- The page right after it is loaded at time `now` with the given script elements: no
capability yet, no load started, no timer. -/
def Loader.fresh (now : Nat) (scripts : List Script) : Loader :=
  { now := now, sellAuthEmbed := false, sellAuthLoadPromise := none, promises := [],
    scripts := scripts, timers := [], nextTimer := 0 }

/-- What the callers of the loader and the page do, one after the other: a call of
`initializeSellAuth`, or an event. -/
inductive Action where
  | call
  | event (e : Event)
  deriving DecidableEq, Repr

/-- The promises returned by the calls of a sequence of actions, in order, and the state
reached. -/
def run : List Action → Loader → List Nat × Loader
  | [], l => ([], l)
  | .call :: rest, l =>
    ((initializeSellAuth l).1 :: (run rest (initializeSellAuth l).2).1,
      (run rest (initializeSellAuth l).2).2)
  | .event e :: rest, l => run rest (l.step e)

/-- The state of a promise (`none` for an index that is not a promise). -/
def Loader.stateOf (l : Loader) (promise : Nat) : Option PromiseState :=
  l.promises[promise]?

end SellAuth

namespace SellAuth

/-- The state of a load started on a fresh page while it polls: the interval is due at
`intervalDue`, the timeout at `deadline`. -/
def Loader.polling (now intervalDue deadline : Nat) (message : String)
    (scripts : List Script) : Loader :=
  { now := now, sellAuthEmbed := false, sellAuthLoadPromise := some 0, promises := [.pending],
    scripts := scripts
    timers := [{ id := 0, due := intervalDue, period := some 100, task := .check 0 },
               { id := 1, due := deadline, period := none, task := .deadline 0 0 message }]
    nextTimer := 2 }

/-- The state of a load started on a fresh page after its promise was rejected and its timers
are gone. -/
def Loader.failed (now : Nat) (message : String) (scripts : List Script) (nextTimer : Nat) :
    Loader :=
  { now := now, sellAuthEmbed := false, sellAuthLoadPromise := some 0,
    promises := [.rejected message], scripts := scripts, timers := [], nextTimer := nextTimer }

/-- The state of a load started on a fresh page while the inserted script has fired neither
`load` nor `error`. -/
def Loader.inserted (now : Nat) (scripts : List Script) : Loader :=
  { now := now, sellAuthEmbed := false, sellAuthLoadPromise := some 0, promises := [.pending],
    scripts := scripts ++ [{ matchesSelector := true, promise := some 0 }], timers := [],
    nextTimer := 0 }

/-- The second state differs from the first at most in the clock, the promise states and the
timers. -/
def Loader.SamePage (l l1 : Loader) : Prop :=
  l1.sellAuthEmbed = l.sellAuthEmbed ∧ l1.sellAuthLoadPromise = l.sellAuthLoadPromise ∧
    l1.scripts = l.scripts

end SellAuth

namespace SellAuth

/-- A script element put into the page by other code (the tag of `index.html`), whose `src`
contains `sellauth.com`. -/
def foreignLoaderTag : Script :=
  { matchesSelector := true, promise := none }

/-- Three calls of `initializeSellAuth` with a millisecond and the `load` event of the inserted
script between them. -/
def threeCalls : List Action :=
  [.call, .event .tick, .call, .event (.scriptLoad 0), .call]

end SellAuth

namespace SellAuth

/-! ## The checkout call (`openSellAuthCheckout`) -/

/-- A number made by a conversion builtin, kept as the conversion and the text it is applied
to: `parseInt(text)` or `Number(text)`. -/
inductive JsNum where
  | parseInt (text : String)
  | number (text : String)
  deriving DecidableEq, Repr

/-- An element of the `cart` array handed to the widget; `variantId` is absent when the
property is not set. -/
structure CartEntry where
  productId : JsNum
  quantity : Int
  variantId : Option JsNum
  deriving DecidableEq, Repr

/-- An argument of `window.sellAuthEmbed.checkout`: `null`, or an options object
`{ shopId, cart, modal }`. -/
inductive Arg where
  | null
  | options (shopId : JsNum) (cart : List CartEntry) (modal : Bool)
  deriving DecidableEq, Repr

/-- What the widget's `checkout` does when it is called: it returns (a value, or a promise that
resolves), it throws, or it returns a promise that rejects. -/
inductive CheckoutBehaviour where
  | returns
  | throws
  | rejects
  deriving DecidableEq, Repr

/-- What the code of the checkout path throws: an `Error` with a message, the `ReferenceError`
of an identifier that is not declared, or whatever the widget threw or rejected with. -/
inductive JsError where
  | error (message : String)
  | referenceError (identifier : String)
  | widget
  deriving DecidableEq, Repr

/-- How an `async` function ends: its promise resolves with a value, it rejects, or the
function stays suspended at an `await` whose promise never settles. -/
inductive Completion (α : Type) where
  | returned (value : α)
  | threw (error : JsError)
  | suspended
  deriving DecidableEq, Repr

/-- What `openSellAuthCheckout` resolves with: `null`, or the response of the widget. -/
inductive Response where
  | null
  | fromWidget
  deriving DecidableEq, Repr

/-- The page as the checkout code sees it: the loader, the `alert` notices shown, the calls of
`window.sellAuthEmbed.checkout` with their argument lists, and the URLs given to
`window.open`. -/
structure Browser where
  loader : Loader
  alerts : List String
  widgetCalls : List (List Arg)
  windows : List String
  deriving DecidableEq, Repr

/-- JavaScript truthiness of a text that may be missing: `null`, `undefined` and `''` are
falsy. -/
def truthy : Option String → Bool
  | some text => decide (text ≠ "")
  | none => false

/-- An `await` of a promise of the loader: the events are what happens on the page until the
promise settles; when they run out with the promise still pending the caller stays
suspended. -/
def awaitPromise (promise : Nat) : List Event → Loader → Completion Unit × Loader
  | [], l =>
    match l.promises[promise]? with
    | some .resolved => (.returned (), l)
    | some (.rejected message) => (.threw (.error message), l)
    | _ => (.suspended, l)
  | e :: rest, l =>
    match l.promises[promise]? with
    | some .resolved => (.returned (), l)
    | some (.rejected message) => (.threw (.error message), l)
    | _ => awaitPromise promise rest (l.step e)

/-- The `try` block of `openSellAuthCheckout` (lines 65-99). -/
def openSellAuthCheckoutTry (events : List Event) (checkout : CheckoutBehaviour)
    (shopId productId : String) (variantId : Option String) (quantity : Int) (b : Browser) :
    Completion Response × Browser :=
  match awaitPromise (initializeSellAuth b.loader).1 events (initializeSellAuth b.loader).2 with
  | (.threw error, l) => (.threw error, { b with loader := l })
  | (.suspended, l) => (.suspended, { b with loader := l })
  | (.returned _, l) =>
    let b1 := { b with loader := l }
    if l.sellAuthEmbed = false then (.threw (.error "SellAuth embed not available"), b1)
    else
      let cart : List CartEntry :=
        [{ productId := .number productId, quantity := quantity
           variantId := if truthy variantId then variantId.map .number else none }]
      if cart.length = 0 then (.threw (.error "Invalid cart for SellAuth checkout"), b1)
      else
        let b2 := { b1 with
          widgetCalls := b1.widgetCalls ++ [[.null, .options (.number shopId) cart false]] }
        match checkout with
        | .returns => (.returned .fromWidget, b2)
        | .throws => (.threw .widget, b2)
        | .rejects => (.threw .widget, b2)

/-- The source's `openSellAuthCheckout` (lines 63-114). The `catch` block reads the identifier
`fallbackTokenUrl`, which no source file declares: the parameter is its binding, `none` when
there is no such global, and reading it then throws a `ReferenceError`. -/
def openSellAuthCheckout (fallbackTokenUrl : Option String) (events : List Event)
    (checkout : CheckoutBehaviour) (shopId productId : String) (variantId : Option String)
    (quantity : Int) (b : Browser) : Completion Response × Browser :=
  match openSellAuthCheckoutTry events checkout shopId productId variantId quantity b with
  | (.threw _, b1) =>
    match fallbackTokenUrl with
    | none => (.threw (.referenceError "fallbackTokenUrl"), b1)
    | some url =>
      (.returned .null,
        { b1 with
          windows := b1.windows ++ [url]
          alerts := b1.alerts ++ ["Checkout is loading, please try again in a moment."] })
  | (.returned r, b1) => (.returned r, b1)
  | (.suspended, b1) => (.suspended, b1)

end SellAuth

/-!
# The cart page (`src/pages/CartPage.jsx`)
-/

namespace CartPage

open CartContext SellAuth

/-- A callback registered by line 75 with `setTimeout`: its delay, and the `user` that the
`clearCart` it calls closes over. -/
structure Scheduled where
  delay : Nat
  user : Option User
  deriving DecidableEq, Repr

/-- The state the page works on: the cart provider, the browser, the in-flight flag
`isCheckingOut`, the clear-cart callbacks registered so far and the toasts shown. -/
structure Page where
  cart : World
  browser : Browser
  isCheckingOut : Bool
  scheduled : List Scheduled
  toasts : List String
  deriving DecidableEq, Repr

/-- JavaScript `a || b` on texts that may be missing. -/
def textOr (a b : Option String) : Option String :=
  if truthy a then a else b

/-- The callback of `cartItems.map` (lines 44-60); `none` is the `null` that
`.filter(Boolean)` removes. -/
def toEntry (item : CartItem) : Option CartEntry :=
  let productId := textOr (item.variant.bind (fun v => v.sellauth_product_id))
    (item.product.bind (fun p => p.sellauth_product_id))
  let variantId := textOr (item.variant.bind (fun v => v.sellauth_variant_id)) none
  match productId with
  | none => none
  | some text =>
    if text = "" then none
    else
      some { productId := .parseInt text, quantity := item.quantity
             variantId :=
               match variantId with
               | none => none
               | some v => if v = "" then none else some (.parseInt v) }

/-- The `try` block of `handleCheckout` (lines 37-79), entered with a truthy `shopId`. -/
def handleCheckoutTry (shopId : String) (events : List Event) (checkout : CheckoutBehaviour)
    (pg : Page) : Completion Unit × Page :=
  match awaitPromise (initializeSellAuth pg.browser.loader).1 events
      (initializeSellAuth pg.browser.loader).2 with
  | (.threw error, l) => (.threw error, { pg with browser := { pg.browser with loader := l } })
  | (.suspended, l) => (.suspended, { pg with browser := { pg.browser with loader := l } })
  | (.returned _, l) =>
    let pg1 := { pg with browser := { pg.browser with loader := l } }
    if l.sellAuthEmbed = false then (.threw (.error "SellAuth embed not available"), pg1)
    else
      let cart := pg1.cart.cartItems.filterMap toEntry
      if cart.length = 0 then
        (.returned (),
          { pg1 with
            browser := { pg1.browser with
              alerts := pg1.browser.alerts ++
                ["None of your cart items have SellAuth product IDs configured"] }
            isCheckingOut := false })
      else
        let pg2 := { pg1 with
          browser := { pg1.browser with
            widgetCalls := pg1.browser.widgetCalls ++
              [[.options (.parseInt shopId) cart true]] } }
        match checkout with
        | .throws => (.threw .widget, pg2)
        | .returns =>
          (.returned (),
            { pg2 with scheduled := pg2.scheduled ++ [{ delay := 1000, user := pg.cart.user }] })
        | .rejects =>
          -- the promise returned by the widget is not awaited
          (.returned (),
            { pg2 with scheduled := pg2.scheduled ++ [{ delay := 1000, user := pg.cart.user }] })

/-- The source's `handleCheckout` (lines 17-85); `shopId` is the value of the environment
variable `VITE_SELLAUTH_SHOP_ID`, `none` when it is not set. -/
def handleCheckout (shopId : Option String) (events : List Event)
    (checkout : CheckoutBehaviour) (pg : Page) : Completion Unit × Page :=
  if pg.cart.cartItems.length = 0 then
    (.returned (),
      { pg with browser := { pg.browser with
          alerts := pg.browser.alerts ++ ["Your cart is empty"] } })
  else if pg.cart.user = none then
    (.returned (),
      { pg with browser := { pg.browser with
          alerts := pg.browser.alerts ++ ["Please log in to checkout"] } })
  else
    match shopId with
    | none =>
      (.returned (),
        { pg with browser := { pg.browser with
            alerts := pg.browser.alerts ++ ["SellAuth is not configured"] } })
    | some text =>
      if text = "" ∨ text = "0" then
        (.returned (),
          { pg with browser := { pg.browser with
              alerts := pg.browser.alerts ++ ["SellAuth is not configured"] } })
      else
        match handleCheckoutTry text events checkout { pg with isCheckingOut := true } with
        | (.threw _, pg1) =>
          (.returned (),
            { pg1 with
              browser := { pg1.browser with
                alerts := pg1.browser.alerts ++
                  ["Checkout is loading, please try again in a moment."] }
              isCheckingOut := false })
        | (.returned r, pg1) => (.returned r, pg1)
        | (.suspended, pg1) => (.suspended, pg1)

/-- The callback registered by line 75 (lines 75-79), run when its delay has passed:
`clearCart` with the user it closes over, the in-flight flag reset, the success toast. -/
def afterCheckout (writeOk : Bool) (s : Scheduled) (pg : Page) : Page :=
  { pg with
    cart := { (clearCart writeOk { pg.cart with user := s.user }).2 with user := pg.cart.user }
    isCheckingOut := false
    toasts := pg.toasts ++
      ["Order placed successfully! Thank you for your purchase. Please consider leaving a review!"] }

end CartPage

/-!
# The one-time-code forms (`src/components/LoginModal.jsx`, `src/pages/LoginPage.jsx`)

The two components keep the same form state. The text of a code box is the list of its
characters; the requests sent to the auth provider and the backend are recorded in
`Form.calls`, and what they answer is an argument of the handler.
-/

namespace Login

/-- The `step` of the form. -/
inductive Step where
  | email
  | otp
  deriving DecidableEq, Repr

/-- The `messageType` of the form. -/
inductive MessageType where
  | info
  | success
  | error
  deriving DecidableEq, Repr

/-- The user of a verified session (`data.user`). -/
structure AuthUser where
  id : String
  email : String
  deriving DecidableEq, Repr

/-- A request sent by one of the forms. -/
inductive AuthCall where
  | signInWithOtp (email : String)
  | verifyOtp (email : String) (token : List Char)
  | getSession
  | createUserProfile (accessToken : String)
  | upsertUser (id : String) (email : String)
  deriving DecidableEq, Repr

/-- The answer of `supabase.auth.verifyOtp`: an `error` with its message, or `data` with the
user, which may be null. -/
inductive VerifyResponse where
  | error (message : String)
  | data (user : Option AuthUser)
  deriving DecidableEq, Repr

/-- How the `fetch` of `create-user-profile` ends: with a response (of any status), or
rejected with an error message. -/
inductive FetchResult where
  | response
  | rejected (message : String)
  deriving DecidableEq, Repr

/-- The state of a form, with the requests it has sent, the number of `handleLoginSuccess`
calls, the delays of the `onClose` timeouts it registered, the code box that has the focus and
what was written with `console.error`. -/
structure Form where
  email : String
  otp : List (List Char)
  step : Step
  loading : Bool
  message : String
  messageType : MessageType
  calls : List AuthCall
  loginSuccesses : Nat
  closeTimeouts : List Nat
  focus : Option Nat
  logs : List String := []
  deriving DecidableEq, Repr

/-- JavaScript `text.includes(part)`. -/
def includes (text part : String) : Bool :=
  decide (part.toList <:+: text.toList)

/-- The six empty boxes `['', '', '', '', '', '']`. -/
def emptyOtp : List (List Char) :=
  [[], [], [], [], [], []]

/-- The source's `handleOtpChange` (the same in both components), for an index of one of the
six boxes: the value is cut to its first character and stored, and the focus moves to the next
box when the value is not empty. -/
def handleOtpChange (index : Nat) (value : List Char) (f : Form) : Form :=
  let value1 := if value.length > 1 then value.take 1 else value
  { f with
    otp := f.otp.set index value1
    focus := if value1 ≠ [] ∧ index < 5 then some (index + 1) else f.focus }

/-- The `catch` and `finally` blocks of `handleOtpSubmit` (the same in both components). -/
def finishOtpSubmit : Except String Unit × Form → Form
  | (.ok _, f) => { f with loading := false }
  | (.error message, f) =>
    { f with
      messageType := .error
      message := if message = "" then "Invalid code. Please try again." else message
      otp := emptyOtp
      focus := some 0
      loading := false }

namespace LoginModal

/-- The `try` block of `handleOtpSubmit` in `LoginModal.jsx` (lines 91-127); a thrown error is
its message. -/
def handleOtpSubmitTry (verify : VerifyResponse) (session : Option String)
    (fetch : FetchResult) (f : Form) : Except String Unit × Form :=
  let otpCode := f.otp.flatten
  if otpCode.length ≠ 6 then (.error "Please enter the complete 6-digit code", f)
  else
    let f1 := { f with calls := f.calls ++ [.verifyOtp f.email otpCode] }
    match verify with
    | .error message => (.error message, f1)
    | .data none => (.ok (), f1)
    | .data (some _) =>
      let f2 := { f1 with calls := f1.calls ++ [.getSession] }
      let loggedIn (g : Form) : Form :=
        { g with
          messageType := .success
          message := "Successfully logged in!"
          loginSuccesses := g.loginSuccesses + 1
          closeTimeouts := g.closeTimeouts ++ [800] }
      match session with
      | none => (.ok (), loggedIn f2)
      | some accessToken =>
        let f3 := { f2 with calls := f2.calls ++ [.createUserProfile accessToken] }
        match fetch with
        | .rejected message => (.error message, f3)
        | .response => (.ok (), loggedIn f3)

/-- The source's `handleOtpSubmit` of `LoginModal.jsx` (lines 86-136). `session` is the
access token of `getSession()` when there is a session. -/
def handleOtpSubmit (verify : VerifyResponse) (session : Option String) (fetch : FetchResult)
    (f : Form) : Form :=
  finishOtpSubmit (handleOtpSubmitTry verify session fetch { f with loading := true, message := "" })

end LoginModal

namespace LoginPage

/-- The `try` block of `handleOtpSubmit` in `LoginPage.jsx` (lines 82-115); `dbError` is the
message of the `error` the upsert answers with, if any. -/
def handleOtpSubmitTry (verify : VerifyResponse) (dbError : Option String) (f : Form) :
    Except String Unit × Form :=
  let otpCode := f.otp.flatten
  if otpCode.length ≠ 6 then (.error "Please enter the complete 6-digit code", f)
  else
    let f1 := { f with calls := f.calls ++ [.verifyOtp f.email otpCode] }
    match verify with
    | .error message => (.error message, f1)
    | .data none => (.ok (), f1)
    | .data (some user) =>
      let f2 : Form := { f1 with calls := f1.calls ++ [.upsertUser user.id user.email] }
      let f3 : Form :=
        match dbError with
        | some message =>
          if includes message "duplicate" then f2
          else { f2 with logs := f2.logs ++ ["Error creating user record: " ++ message] }
        | none => f2
      (.ok (), { f3 with messageType := .success, message := "Successfully logged in!" })

/-- The source's `handleOtpSubmit` of `LoginPage.jsx` (lines 77-123). -/
def handleOtpSubmit (verify : VerifyResponse) (dbError : Option String) (f : Form) : Form :=
  finishOtpSubmit
    (handleOtpSubmitTry verify dbError { f with loading := true, message := "" })

end LoginPage

/-- The code is exactly six decimal digits. -/
def SixDigits (code : List Char) : Prop :=
  code.length = 6 ∧ ∀ c ∈ code, c.isDigit = true

instance (code : List Char) : Decidable (SixDigits code) := by
  unfold SixDigits
  infer_instance

/-- What the attributes `pattern="[0-9]*"` and `maxLength="1"` of a code box admit: an empty
box or one decimal digit. -/
def BoxValid (box : List Char) : Prop :=
  box.length ≤ 1 ∧ ∀ c ∈ box, c.isDigit = true

instance (box : List Char) : Decidable (BoxValid box) := by
  unfold BoxValid
  infer_instance

/-- The form in the `otp` step with the given boxes. -/
def otpForm (otp : List (List Char)) : Form :=
  { email := "a@b.com", otp := otp, step := .otp, loading := false, message := "",
    messageType := .info, calls := [], loginSuccesses := 0, closeTimeouts := [], focus := none }

end Login

namespace CartPage

open CartContext SellAuth

/-! ## Sample pages -/

/-- A browser in which the widget script has run: the capability is present. -/
def readyBrowser : Browser :=
  { loader := { Loader.fresh 0 [foreignLoaderTag] with sellAuthEmbed := true }
    alerts := [], widgetCalls := [], windows := [] }

/-- A browser right after the page is loaded: no capability and no script tag of the loader. -/
def loadingBrowser : Browser :=
  { loader := Loader.fresh 0 [], alerts := [], widgetCalls := [], windows := [] }

/-- The cart of user 1 with one line item: quantity 2 of product 1, which has no variants and
carries the external product id `5` and the external variant id `9`. -/
def configuredCart : World :=
  { cartItems :=
      [{ id := 1, user_id := 1, product_id := 1, variant_id := none, quantity := 2
         product := some { id := 1, sale_price := some 10, sellauth_product_id := some "5",
                           sellauth_variant_id := some "9" }
         variant := none }]
    loading := false
    user := some { id := 1 }
    gateway :=
      { cart_items :=
          [{ id := 1, user_id := 1, product_id := 1, variant_id := none, quantity := 2 }]
        products := [{ id := 1, sale_price := some 10, sellauth_product_id := some "5",
                       sellauth_variant_id := some "9" }]
        product_variants := []
        nextId := 2 }
    calls := [], alerts := [] }

/-- The cart page of user 1 with the configured cart and the widget ready. -/
def configuredPage : Page :=
  { cart := configuredCart, browser := readyBrowser, isCheckingOut := false, scheduled := [],
    toasts := [] }

/-- The cart page of user 1 whose only line item, product A, has no external id. -/
def unconfiguredPage : Page :=
  { cart :=
      { configuredCart with
        cartItems :=
          [{ id := 1, user_id := 1, product_id := 1, variant_id := none, quantity := 2
             product := some { id := 1, sale_price := some 10 }, variant := none }] }
    browser := readyBrowser, isCheckingOut := false, scheduled := [], toasts := [] }

/-- The external product id the mapping resolves for a line item: the variant's, or else the
product's. -/
def externalProductId (item : CartItem) : Option String :=
  textOr (item.variant.bind (fun v => v.sellauth_product_id))
    (item.product.bind (fun p => p.sellauth_product_id))

end CartPage

namespace CartContext

/-- The provider of user 1 over a store that holds two rows of user 1 and one row of user 2;
the cache holds the rows of user 1. -/
def sharedStoreWorld : World :=
  { cartItems :=
      [{ id := 3, user_id := 1, product_id := 2, variant_id := some 7, quantity := 1
         product := some { id := 2, sale_price := some 40 }
         variant := some { id := 7, sale_price := some 25 } },
       { id := 1, user_id := 1, product_id := 1, variant_id := none, quantity := 2
         product := some { id := 1, sale_price := some 10 }, variant := none }]
    loading := false
    user := some { id := 1 }
    gateway := { sampleGateway with
      cart_items :=
        [{ id := 3, user_id := 1, product_id := 2, variant_id := some 7, quantity := 1 },
         { id := 2, user_id := 2, product_id := 1, variant_id := none, quantity := 4 },
         { id := 1, user_id := 1, product_id := 1, variant_id := none, quantity := 2 }]
      nextId := 4 }
    calls := [], alerts := [] }

end CartContext

namespace SellAuth

/-- A browser in which an earlier load has resolved and the capability has since been
removed from `window`. -/
def lostCapabilityBrowser : Browser :=
  { loader :=
      { now := 500, sellAuthEmbed := false, sellAuthLoadPromise := some 0,
        promises := [.resolved], scripts := [foreignLoaderTag], timers := [], nextTimer := 2 }
    alerts := [], widgetCalls := [], windows := [] }

end SellAuth

namespace Login

/-- The form after a rejected code: the error message, the boxes emptied, the focus on the
first box. -/
def rejectedForm (f : Form) (message : String) : Form :=
  { f with messageType := .error, message := message, otp := emptyOtp, focus := some 0,
           loading := false }

end Login

namespace Login

/-- The answer of `supabase.auth.signInWithOtp`: no error, or an `error` with its message. -/
inductive SignInResponse where
  | ok
  | error (message : String)
  deriving DecidableEq, Repr

namespace LoginModal

/-- The `try` block of `handleEmailSubmit` in `LoginModal.jsx` (lines 39-55); a thrown error is
its message. -/
def handleEmailSubmitTry (response : SignInResponse) (f : Form) : Except String Unit × Form :=
  if f.email = "" then (.error "Please enter your email address", f)
  else
    let f1 : Form := { f with calls := f.calls ++ [.signInWithOtp f.email] }
    match response with
    | .error message => (.error message, f1)
    | .ok =>
      (.ok (),
        { f1 with
          messageType := .success
          message := "A 6-digit code has been sent to your email!"
          step := .otp })

/-- The source's `handleEmailSubmit` of `LoginModal.jsx` (lines 34-62). -/
def handleEmailSubmit (response : SignInResponse) (f : Form) : Form :=
  match handleEmailSubmitTry response { f with loading := true, message := "" } with
  | (.ok _, f1) => { f1 with loading := false }
  | (.error message, f1) =>
    { f1 with
      messageType := .error
      message := if message = "" then "An error occurred" else message
      loading := false }

end LoginModal

namespace LoginPage

/-- The `try` block of `handleEmailSubmit` in `LoginPage.jsx` (lines 30-46); a thrown error is
its message. -/
def handleEmailSubmitTry (response : SignInResponse) (f : Form) : Except String Unit × Form :=
  if f.email = "" then (.error "Please enter your email address", f)
  else
    let f1 : Form := { f with calls := f.calls ++ [.signInWithOtp f.email] }
    match response with
    | .error message => (.error message, f1)
    | .ok =>
      (.ok (),
        { f1 with
          messageType := .success
          message := "A 6-digit code has been sent to your email!"
          step := .otp })

/-- The source's `handleEmailSubmit` of `LoginPage.jsx` (lines 25-53). -/
def handleEmailSubmit (response : SignInResponse) (f : Form) : Form :=
  match handleEmailSubmitTry response { f with loading := true, message := "" } with
  | (.ok _, f1) => { f1 with loading := false }
  | (.error message, f1) =>
    { f1 with
      messageType := .error
      message := if message = "" then "An error occurred" else message
      loading := false }

end LoginPage

/-- The form in the `email` step with the given address typed in. -/
def emailForm (email : String) : Form :=
  { email := email, otp := emptyOtp, step := .email, loading := false, message := "",
    messageType := .info, calls := [], loginSuccesses := 0, closeTimeouts := [], focus := none }

/-- The form in the `otp` step with the code `123456` typed in. -/
def completeOtpForm : Form :=
  otpForm [['1'], ['2'], ['3'], ['4'], ['5'], ['6']]

/-- A user as `verifyOtp` returns it. -/
def verifiedUser : AuthUser :=
  { id := "u1", email := "a@b.com" }

end Login

/-!
# The session provider (`src/contexts/AuthContext.jsx`)
-/

namespace AuthContext

/-- A request of the provider. -/
inductive Request where
  | selectRole (userId : String)
  | signOut
  deriving DecidableEq, Repr

/-- The provider state (`user`, `userRole`, `loading`), the requests sent and what was
written with `console.error`. -/
structure State where
  user : Option Login.AuthUser
  userRole : Option String
  loading : Bool
  requests : List Request
  logs : List String
  deriving DecidableEq, Repr

/-- How the role query of lines 49-53 ends: an `error` with its message, the row of the user
with its `role` (`none` when the column is null), no row (`data` is null), or a rejected
promise. -/
inductive RoleLookup where
  | error (message : String)
  | row (role : Option String)
  | noRow
  | rejected (message : String)
  deriving DecidableEq, Repr

/-- How `supabase.auth.signOut()` ends: without error, with an `error`, or with a rejected
promise. -/
inductive SignOutResponse where
  | ok
  | error (message : String)
  | rejected (message : String)
  deriving DecidableEq, Repr

/-- Modelled from the spec: the roles of the data model, `customer` and `admin`. The schema of
the table `users` is not part of the sources, and the code reads whatever its `role` column
holds. -/
def ValidRole (role : Option String) : Prop :=
  role = some "customer" ∨ role = some "admin"

instance (role : Option String) : Decidable (ValidRole role) := by
  unfold ValidRole
  infer_instance

/-- The `try` block of `fetchUserRole` (lines 49-61); a thrown error is its message. -/
def fetchUserRoleTry (lookup : RoleLookup) (userId : String) (s : State) :
    Except String Unit × State :=
  let s1 : State := { s with requests := s.requests ++ [.selectRole userId] }
  match lookup with
  | .rejected message => (.error message, s1)
  | .error message => (.error message, s1)
  | .row role => (.ok (), { s1 with userRole := role })
  | .noRow => (.ok (), { s1 with userRole := some "customer" })

/-- The source's `fetchUserRole` (lines 47-68). -/
def fetchUserRole (lookup : RoleLookup) (userId : String) (s : State) : State :=
  match fetchUserRoleTry lookup userId s with
  | (.ok _, s1) => { s1 with loading := false }
  | (.error message, s1) =>
    { s1 with
      logs := s1.logs ++ ["Error fetching user role: " ++ message]
      userRole := some "customer"
      loading := false }

/-- The `isAdmin` of the provider value (line 143). -/
def isAdmin (s : State) : Bool :=
  decide (s.userRole = some "admin")

/-- The source's `signOut` (lines 123-133). The result is the `error` of the object returned:
`none` for `{ error: null }`. -/
def signOut (response : SignOutResponse) (s : State) : Option String × State :=
  let s1 : State := { s with requests := s.requests ++ [.signOut] }
  match response with
  | .rejected message => (some message, s1)
  | .error message => (some message, s1)
  | .ok => (none, { s1 with user := none, userRole := none })

/-- The provider with user `u1` signed in as an administrator. -/
def adminState : State :=
  { user := some { id := "u1", email := "a@b.com" }, userRole := some "admin", loading := false,
    requests := [], logs := [] }

end AuthContext

/-!
# The review form (`src/components/ReviewModal.jsx`)
-/

namespace ReviewModal

/-- The kind of a toast. -/
inductive ToastType where
  | success
  | error
  deriving DecidableEq, Repr

/-- A toast shown with `showToast`. -/
structure Toast where
  message : String
  type : ToastType
  deriving DecidableEq, Repr

/-- The row handed to the insert into `reviews` (lines 98-105). -/
structure Review where
  user_id : String
  product_id : Option String
  rating : Nat
  comment : String
  author : String
  verified_purchase : Bool
  deriving DecidableEq, Repr

/-- A request of the form. -/
inductive Request where
  | checkVerifiedPurchase (p_user_id : String) (p_product_id : String)
  | insertReview (row : Review)
  deriving DecidableEq, Repr

/-- The state of the form: the signed-in user of `useAuth`, the fields, the toasts shown, the
requests sent, what was written with `console.error`, the number of `onReviewSubmitted` and
`onClose` calls and the delays of the `onClose` timeouts registered. -/
structure Form where
  user : Option Login.AuthUser
  rating : Nat
  comment : String
  authorName : String
  productId : String
  loading : Bool
  verifiedPurchase : Bool
  toasts : List Toast
  requests : List Request
  logs : List String
  submitted : Nat
  closed : Nat
  closeTimeouts : List Nat
  deriving DecidableEq, Repr

/-- How the call of `check_verified_purchase` ends: with `data` (a Boolean or null), or with an
error (returned or thrown). -/
inductive CheckResult where
  | data (value : Option Bool)
  | error (message : String)
  deriving DecidableEq, Repr

/-- The white space and line terminators that JavaScript `trim` removes. -/
def isWhiteSpace (c : Char) : Bool :=
  decide (c.toNat ∈ [0x09, 0x0A, 0x0B, 0x0C, 0x0D, 0x20, 0xA0, 0x1680, 0x2028, 0x2029, 0x202F,
    0x205F, 0x3000, 0xFEFF]) || (decide (0x2000 ≤ c.toNat) && decide (c.toNat ≤ 0x200A))

/-- JavaScript `text.trim()`. -/
def trim (text : String) : String :=
  String.mk (((text.toList.dropWhile isWhiteSpace).reverse.dropWhile isWhiteSpace).reverse)

/-- The source's `showToast` (lines 30-33); the timeout that hides the toast is left out. -/
def showToast (message : String) (type : ToastType) (f : Form) : Form :=
  { f with toasts := f.toasts ++ [{ message := message, type := type }] }

/-- The source's `checkVerifiedPurchase` (lines 49-68). -/
def checkVerifiedPurchase (result : CheckResult) (f : Form) : Form :=
  match f.user with
  | none => { f with verifiedPurchase := false }
  | some user =>
    if f.productId = "" then { f with verifiedPurchase := false }
    else
      let f1 : Form :=
        { f with requests := f.requests ++ [.checkVerifiedPurchase user.id f.productId] }
      match result with
      | .data value => { f1 with verifiedPurchase := value.getD false }
      | .error message =>
        { f1 with
          logs := f1.logs ++ ["Error checking verified purchase: " ++ message]
          verifiedPurchase := false }

/-- The effect on `[productId, user]` (lines 24-28). -/
def productIdEffect (result : CheckResult) (f : Form) : Form :=
  if f.productId ≠ "" ∧ f.user ≠ none then checkVerifiedPurchase result f else f

/-- The `onChange` of the product select (line 187) with the render that follows it: the
effect on `[productId, user]` runs when the value of `productId` has changed, and the purchase
check it starts completes before the next event. -/
def selectProduct (value : String) (result : CheckResult) (f : Form) : Form :=
  if value = f.productId then f
  else productIdEffect result { f with productId := value }

/-- The `try` block of `handleSubmit` (lines 96-123); a thrown error is its message. -/
def handleSubmitTry (insertError : Option String) (user : Login.AuthUser) (f : Form) :
    Except String Unit × Form :=
  let row : Review :=
    { user_id := user.id
      product_id := if f.productId = "" then none else some f.productId
      rating := f.rating
      comment := trim f.comment
      author := trim f.authorName
      verified_purchase := f.verifiedPurchase }
  let f1 : Form := { f with requests := f.requests ++ [.insertReview row] }
  match insertError with
  | some message => (.error message, f1)
  | none =>
    (.ok (),
      { showToast "Review submitted successfully!" .success f1 with
        rating := 0
        comment := ""
        authorName := ""
        productId := ""
        verifiedPurchase := false
        submitted := f1.submitted + 1
        closeTimeouts := f1.closeTimeouts ++ [1500] })

/-- The source's `handleSubmit` (lines 70-130); `insertError` is the message of the `error`
the insert answers with, if any. -/
def handleSubmit (insertError : Option String) (f : Form) : Form :=
  match f.user with
  | none => showToast "Please log in to submit a review" .error f
  | some user =>
    if f.rating = 0 then showToast "Please select a rating" .error f
    else if trim f.comment = "" then showToast "Please write a comment" .error f
    else if trim f.authorName = "" then showToast "Please enter your name" .error f
    else
      match handleSubmitTry insertError user { f with loading := true } with
      | (.ok _, f1) => { f1 with loading := false }
      | (.error message, f1) =>
        { showToast "Error submitting review. Please try again." .error f1 with
          logs := f1.logs ++ ["Error submitting review: " ++ message]
          loading := false }

/-- The source's `handleClose` (lines 132-141). -/
def handleClose (f : Form) : Form :=
  if f.loading then f
  else
    { f with
      rating := 0, comment := "", authorName := "", productId := "", verifiedPurchase := false
      closed := f.closed + 1 }

/-- What the user can do with the form: press one of the five star buttons (`setRating(star)`
for `star` from 1 to 5), type a comment or a name, choose an entry of the product select,
close the form, submit it. -/
inductive Control where
  | star (index : Fin 5)
  | comment (text : String)
  | authorName (text : String)
  | product (value : String) (result : CheckResult)
  | close
  | submit (insertError : Option String)
  deriving DecidableEq, Repr

/-- The effect of a control on the form. -/
def Control.apply (c : Control) (f : Form) : Form :=
  match c with
  | .star index => { f with rating := index.val + 1 }
  | .comment text => { f with comment := text }
  | .authorName text => { f with authorName := text }
  | .product value result => selectProduct value result f
  | .close => handleClose f
  | .submit insertError => handleSubmit insertError f

/-- The form as it is when the component mounts. -/
def initial (user : Option Login.AuthUser) : Form :=
  { user := user, rating := 0, comment := "", authorName := "", productId := "",
    loading := false, verifiedPurchase := false, toasts := [], requests := [], logs := [],
    submitted := 0, closed := 0, closeTimeouts := [] }

/-- The form after a sequence of controls. -/
def reach (controls : List Control) (f : Form) : Form :=
  controls.foldl (fun g c => c.apply g) f

/-- The text ends with the given ending. -/
def EndsWith (text ending : String) : Prop :=
  ending.toList <:+ text.toList

instance (text ending : String) : Decidable (EndsWith text ending) := by
  unfold EndsWith
  infer_instance

/-- User `u1` chooses product `p1`, which the purchase check confirms, then switches the select
back to `General Review`, gives five stars and fills in the comment and the name. -/
def generalAfterProduct : List Control :=
  [.product "p1" (.data (some true)), .product "" (.data none), .star 4,
   .comment " Great service ", .authorName "Ana"]

end ReviewModal

/-!
# Saving a product (`src/pages/AdminDashboard.jsx`)
-/

namespace AdminDashboard

/-- A request of `handleProductSubmit`; `fields` are the values of the submitted form, from
which lines 89-102 build the row. -/
inductive Request where
  | updateProduct (id : Nat) (fields : List (String × String))
  | insertProduct (fields : List (String × String))
  | loadData
  deriving DecidableEq, Repr

/-- The part of the dashboard state that `handleProductSubmit` works on. -/
structure Dashboard where
  editingProduct : Option Nat
  showProductModal : Bool
  toasts : List ReviewModal.Toast
  requests : List Request
  deriving DecidableEq, Repr

/-- The source's `showToast` (lines 58-61); the timeout that hides the toast is left out. -/
def showToast (message : String) (type : ReviewModal.ToastType) (d : Dashboard) : Dashboard :=
  { d with toasts := d.toasts ++ [{ message := message, type := type }] }

/-- The `try` block of `handleProductSubmit` (lines 105-121); a thrown error is its
message. -/
def handleProductSubmitTry (error : Option String) (fields : List (String × String))
    (d : Dashboard) : Except String Unit × Dashboard :=
  let saved (d1 : Dashboard) : Dashboard :=
    { d1 with
      showProductModal := false
      editingProduct := none
      requests := d1.requests ++ [.loadData] }
  match d.editingProduct with
  | some id =>
    let d1 : Dashboard := { d with requests := d.requests ++ [.updateProduct id fields] }
    match error with
    | some message => (.error message, d1)
    | none => (.ok (), saved (showToast "Product updated successfully!" .success d1))
  | none =>
    let d1 : Dashboard := { d with requests := d.requests ++ [.insertProduct fields] }
    match error with
    | some message => (.error message, d1)
    | none => (.ok (), saved (showToast "Product added successfully!" .success d1))

/-- The source's `handleProductSubmit` (lines 86-125); `error` is the message of the `error`
the gateway answers with, if any. -/
def handleProductSubmit (error : Option String) (fields : List (String × String))
    (d : Dashboard) : Dashboard :=
  match handleProductSubmitTry error fields d with
  | (.ok _, d1) => d1
  | (.error message, d1) => showToast ("Error saving product: " ++ message) .error d1

/-- The dashboard with the form of a new product open. -/
def newProductDashboard : Dashboard :=
  { editingProduct := none, showProductModal := true, toasts := [], requests := [] }

end AdminDashboard

namespace ReviewModal

/-- The last toast shown is an error toast whose message ends with the given text. -/
def LastToastEndsWith (toasts : List Toast) (ending : String) : Prop :=
  match toasts.getLast? with
  | some t => t.type = .error ∧ EndsWith t.message ending
  | none => False

instance (toasts : List Toast) (ending : String) :
    Decidable (LastToastEndsWith toasts ending) := by
  unfold LastToastEndsWith
  cases toasts.getLast? <;> infer_instance

/-- The form passes the checks of `handleSubmit` that come before the insert. -/
def Submittable (f : Form) : Prop :=
  f.user ≠ none ∧ f.rating ≠ 0 ∧ trim f.comment ≠ "" ∧ trim f.authorName ≠ ""

instance (f : Form) : Decidable (Submittable f) := by
  unfold Submittable
  infer_instance

/-- A filled-in form of user `u1`: five stars, a comment and a name, no product chosen. -/
def filledForm : Form :=
  reach [.star 4, .comment " Great service ", .authorName "Ana"]
    (initial (some Login.verifiedUser))

end ReviewModal

namespace CartContext

/-- The write the specification describes for `addToCart`: an update of the first cached line
item with the same product and variant, to its quantity plus the requested one, when there is
such an item, and otherwise an insert of the row. -/
def expectedWrite (user : User) (productId : Nat) (variantId : Option Nat) (quantity : Int)
    (w : World) : GatewayCall :=
  match w.cartItems.find?
      (fun item => decide (item.product_id = productId ∧ item.variant_id = variantId)) with
  | some existingItem => .update existingItem.id (existingItem.quantity + quantity)
  | none => .insert user.id productId variantId quantity

end CartContext

namespace SellAuth

/-- Two later calls of `initializeSellAuth`, with a millisecond between them. -/
def laterCalls : List Action :=
  [.call, .event .tick, .call]

end SellAuth

namespace CartPage

/-- The value of a character as a digit of `parseInt`: `0`-`9`, `a`-`z` and `A`-`Z`. -/
def digitValue (c : Char) : Option Nat :=
  if c.isDigit then some (c.toNat - 48)
  else if c.isLower then some (c.toNat - 87)
  else if c.isUpper then some (c.toNat - 55)
  else none

/-- The values of the longest run of leading characters that are digits in the radix. -/
def leadingDigits (radix : Nat) : List Char → List Nat
  | [] => []
  | c :: rest =>
    match digitValue c with
    | some d => if d < radix then d :: leadingDigits radix rest else []
    | none => []

/-- JavaScript `parseInt(text)` without a radix argument, as the mathematical integer that is
read before it is rounded to a Number: leading white space is skipped, a sign and a `0x` or
`0X` marker are read, and the longest run of digits is evaluated; `none` is `NaN`. -/
def parseIntValue (text : String) : Option Int :=
  let s := text.toList.dropWhile ReviewModal.isWhiteSpace
  let negative : Bool := decide (s.head? = some '-')
  let s1 :=
    match s with
    | '-' :: rest => rest
    | '+' :: rest => rest
    | rest => rest
  let radix : Nat :=
    match s1 with
    | '0' :: 'x' :: _ => 16
    | '0' :: 'X' :: _ => 16
    | _ => 10
  let s2 :=
    match s1 with
    | '0' :: 'x' :: rest => rest
    | '0' :: 'X' :: rest => rest
    | rest => rest
  let digits := leadingDigits radix s2
  if digits = [] then none
  else
    let value : Int := digits.foldl (fun acc d => acc * (radix : Int) + (d : Int)) 0
    some (if negative then -value else value)

/-- The configured shop identifier is a text that `parseInt` reads as zero. -/
def ZeroShopId (shopId : Option String) : Prop :=
  match shopId with
  | some text => parseIntValue text = some 0
  | none => False

instance (shopId : Option String) : Decidable (ZeroShopId shopId) := by
  unfold ZeroShopId
  cases shopId <;> infer_instance

end CartPage

namespace CartContext

/-! ## Helper lemmas -/

theorem foldl_add_eq_sum {α : Type} (f : α → Int) (l : List α) (a : Int) :
    l.foldl (fun total x => total + f x) a = a + (l.map f).sum := by
  induction l generalizing a with
  | nil => simp
  | cons x xs ih => simp [List.foldl_cons, ih, add_assoc]

theorem price_eq_specPrice_of_variant_ne_zero (item : CartItem)
    (h : variantSalePrice item ≠ some 0) : price item = specPrice item := by
  unfold variantSalePrice at h
  unfold price specPrice orElse nullish
  cases hv : item.variant.bind (fun v => v.sale_price) with
  | none =>
    cases hp : item.product.bind (fun p => p.sale_price) with
    | none => simp
    | some p =>
      by_cases h0 : p = 0
      · simp [h0]
      · simp [h0]
  | some p =>
    have h0 : p ≠ 0 := by
      intro hp
      apply h
      rw [hv, hp]
    simp [h0]

theorem addToCart_found (w : World) (writeOk reloadOk : Bool) (user : User) (productId : Nat)
    (variantId : Option Nat) (quantity : Int) (existingItem : CartItem)
    (hu : w.user = some user)
    (hf : w.cartItems.find?
      (fun item => decide (item.product_id = productId ∧ item.variant_id = variantId)) =
        some existingItem) :
    addToCart writeOk reloadOk productId variantId quantity w =
      if writeOk then
        (.ok true, loadCartItems reloadOk
          (request true (.update existingItem.id (existingItem.quantity + quantity)) w).2)
      else
        (.ok false,
          (request false (.update existingItem.id (existingItem.quantity + quantity)) w).2) := by
  unfold addToCart addToCartTry
  simp only [hu, hf]
  cases writeOk <;> simp [request]

theorem addToCart_not_found (w : World) (writeOk reloadOk : Bool) (user : User)
    (productId : Nat) (variantId : Option Nat) (quantity : Int)
    (hu : w.user = some user)
    (hf : w.cartItems.find?
      (fun item => decide (item.product_id = productId ∧ item.variant_id = variantId)) = none) :
    addToCart writeOk reloadOk productId variantId quantity w =
      if writeOk then
        (.ok true, loadCartItems reloadOk
          (request true (.insert user.id productId variantId quantity) w).2)
      else
        (.ok false, (request false (.insert user.id productId variantId quantity) w).2) := by
  unfold addToCart addToCartTry
  simp only [hu, hf]
  cases writeOk <;> simp [request]

theorem loadCartItems_ok (w : World) (user : User) (hu : w.user = some user) :
    loadCartItems true w =
      { w with
        cartItems := w.gateway.select user.id
        calls := w.calls ++ [.select user.id]
        loading := false } := by
  simp [loadCartItems, hu, request, Gateway.apply]

end CartContext

namespace CartContext

/-! ## Unauthenticated calls -/

/-- C2: `addToCart` called with no authenticated user returns `false`, sends nothing to the
gateway (so neither an insert nor an update), and leaves the cache and the store as they were,
for every state and every argument triple. -/
theorem addToCart_unauthenticated (w : World) (writeOk reloadOk : Bool) (productId : Nat)
    (variantId : Option Nat) (quantity : Int) (h : w.user = none) :
    (addToCart writeOk reloadOk productId variantId quantity w).1 = .ok false ∧
    (addToCart writeOk reloadOk productId variantId quantity w).2.calls = w.calls ∧
    (addToCart writeOk reloadOk productId variantId quantity w).2.cartItems = w.cartItems ∧
    (addToCart writeOk reloadOk productId variantId quantity w).2.gateway = w.gateway := by
  simp [addToCart, h]

theorem addToCart_unauthenticated_witness :
    anonymousWorld.user = none ∧
    (addToCart true true 1 none 1 anonymousWorld).1 = .ok false ∧
    (addToCart true true 1 none 1 anonymousWorld).2.calls = anonymousWorld.calls ∧
    (addToCart true true 1 none 1 anonymousWorld).2.cartItems = anonymousWorld.cartItems ∧
    (addToCart true true 1 none 1 anonymousWorld).2.gateway = anonymousWorld.gateway :=
  ⟨rfl, addToCart_unauthenticated anonymousWorld true true 1 none 1 rfl⟩

/-- C3 (the code at the failing input): with no authenticated user, `removeFromCart(5)` sends
the delete of row 5 and the store loses the row, and `updateQuantity(5, 3)` sends the update of
row 5 and the store keeps it with quantity 3; only `clearCart` sends nothing. -/
theorem unauthenticated_mutations_reach_gateway :
    anonymousWorld.user = none ∧
    (removeFromCart true true 5 anonymousWorld).2.calls = [.deleteById 5] ∧
    (removeFromCart true true 5 anonymousWorld).2.gateway.cart_items = [] ∧
    (updateQuantity true true 5 3 anonymousWorld).2.calls = [.update 5 3] ∧
    (updateQuantity true true 5 3 anonymousWorld).2.gateway.cart_items =
      [{ id := 5, user_id := 1, product_id := 1, variant_id := none, quantity := 3 }] ∧
    (clearCart true anonymousWorld).2.calls = [] := by
  decide

/-! ## Quantity changes -/

/-- C4: for every line-item id, every state and every quantity `q ≤ 0`, `updateQuantity(id, q)`
completes like `removeFromCart(id)` and ends in the same state, the trace of gateway requests
included, and none of the requests it sends is a quantity update. -/
theorem updateQuantity_nonpositive_eq_remove (w : World) (writeOk reloadOk : Bool)
    (cartItemId : Nat) (quantity : Int) (h : quantity ≤ 0) :
    updateQuantity writeOk reloadOk cartItemId quantity w =
      removeFromCart writeOk reloadOk cartItemId w ∧
    ∀ c ∈ newCalls w (updateQuantity writeOk reloadOk cartItemId quantity w).2,
      c.isUpdate = false := by
  have heq : updateQuantity writeOk reloadOk cartItemId quantity w =
      removeFromCart writeOk reloadOk cartItemId w := by
    unfold updateQuantity
    rw [if_pos h]
    unfold removeFromCart
    cases removeFromCartTry writeOk reloadOk cartItemId w with
    | mk r w1 => cases r <;> rfl
  refine ⟨heq, ?_⟩
  rw [heq]
  intro c hc
  cases writeOk <;> cases hu : w.user <;> cases reloadOk <;>
    simp [newCalls, removeFromCart, removeFromCartTry, request, loadCartItems, hu] at hc <;>
    rcases hc with rfl | rfl <;> rfl

theorem updateQuantity_nonpositive_eq_remove_witness :
    ((-1 : Int) ≤ 0) ∧
    (updateQuantity true true 1 (-1) (addToCart true true 1 none 2 signedInWorld).2 =
      removeFromCart true true 1 (addToCart true true 1 none 2 signedInWorld).2 ∧
    ∀ c ∈ newCalls (addToCart true true 1 none 2 signedInWorld).2
        (updateQuantity true true 1 (-1) (addToCart true true 1 none 2 signedInWorld).2).2,
      c.isUpdate = false) :=
  ⟨by decide,
    updateQuantity_nonpositive_eq_remove (addToCart true true 1 none 2 signedInWorld).2
      true true 1 (-1) (by decide)⟩

end CartContext

namespace CartContext

/-! ## Derived totals -/

/-- C5 (as stated, refuted): `getTotalPrice` is not the sum of
`(variant.sale_price ?? product.sale_price ?? 0) * quantity`. For one line item of quantity 1
whose variant has the sale price 0 and whose product sells at 10 the code returns 10, where the
present variant price 0 would give 0. -/
theorem getTotalPrice_ne_totalPriceSpec :
    ¬ (∀ cartItems : List CartItem, getTotalPrice cartItems = totalPriceSpec cartItems) := by
  intro h
  have h1 := h [freeVariantItem]
  revert h1
  decide

/-- C5 (amended): for every cache `getTotalPrice` is the sum over its line items of
`(variant.sale_price || product.sale_price || 0) * quantity`, where a later price is used when
the earlier one is missing or 0: a variant sale price that is present and not 0 is the price of
the item, a variant sale price that is missing or 0 gives way to the product sale price, and an
item with neither price contributes 0. When no line item has a variant sale price of 0 the total
is the sum of `(variant.sale_price ?? product.sale_price ?? 0) * quantity`. The scenario
`[A, B]` of the specification gives 45. -/
theorem getTotalPrice_eq_sum (cartItems : List CartItem) :
    getTotalPrice cartItems = (cartItems.map (fun item => price item * item.quantity)).sum ∧
    (∀ item p, variantSalePrice item = some p → p ≠ 0 → price item = p) ∧
    (∀ item p, (variantSalePrice item = none ∨ variantSalePrice item = some 0) →
      productSalePrice item = some p → price item = p) ∧
    (∀ item, (variantSalePrice item = none ∨ variantSalePrice item = some 0) →
      productSalePrice item = none → price item = 0) ∧
    ((∀ item ∈ cartItems, variantSalePrice item ≠ some 0) →
      getTotalPrice cartItems = totalPriceSpec cartItems) ∧
    getTotalPrice [scenarioItemA, scenarioItemB] = 45 := by
  have hsum : getTotalPrice cartItems =
      (cartItems.map (fun item => price item * item.quantity)).sum := by
    unfold getTotalPrice
    rw [foldl_add_eq_sum (fun item => price item * item.quantity) cartItems 0]
    simp
  refine ⟨hsum, ?_, ?_, ?_, ?_, by decide⟩
  · intro item p hv hp
    unfold variantSalePrice at hv
    simp [price, orElse, hv, hp]
  · intro item p hv hprod
    unfold variantSalePrice at hv
    unfold productSalePrice at hprod
    by_cases h0 : p = 0
    · rcases hv with hv | hv <;> simp [price, orElse, hv, hprod, h0]
    · rcases hv with hv | hv <;> simp [price, orElse, hv, hprod, h0]
  · intro item hv hprod
    unfold variantSalePrice at hv
    unfold productSalePrice at hprod
    rcases hv with hv | hv <;> simp [price, orElse, hv, hprod]
  · intro hall
    rw [hsum]
    unfold totalPriceSpec
    congr 1
    apply List.map_congr_left
    intro item hmem
    rw [price_eq_specPrice_of_variant_ne_zero item (hall item hmem)]

theorem getTotalPrice_eq_sum_witness :
    (∀ item ∈ [scenarioItemA, scenarioItemB], variantSalePrice item ≠ some 0) ∧
    variantSalePrice scenarioItemB = some 25 ∧ ((25 : Int) ≠ 0) ∧
    price scenarioItemB = 25 ∧
    getTotalPrice [scenarioItemA, scenarioItemB] =
      totalPriceSpec [scenarioItemA, scenarioItemB] :=
  ⟨by decide, by decide, by decide,
    (getTotalPrice_eq_sum [scenarioItemA, scenarioItemB]).2.1 scenarioItemB 25
      (by decide) (by decide),
    (getTotalPrice_eq_sum [scenarioItemA, scenarioItemB]).2.2.2.2.1 (by decide)⟩

/-- C6: for every cache `getTotalItems` is the sum of the quantities of its line items, not
their number: three line items of quantity 2 give 6, and the empty cart gives 0. -/
theorem getTotalItems_eq_sum (cartItems : List CartItem) :
    getTotalItems cartItems = (cartItems.map (fun item => item.quantity)).sum ∧
    (∀ a b c : CartItem,
      getTotalItems [{ a with quantity := 2 }, { b with quantity := 2 },
        { c with quantity := 2 }] = 6) ∧
    getTotalItems [] = 0 := by
  refine ⟨?_, ?_, rfl⟩
  · unfold getTotalItems
    rw [foldl_add_eq_sum (fun item => item.quantity) cartItems 0]
    simp
  · intro a b c
    simp [getTotalItems]

/-! ## Quantities written to the store -/

/-- C8 (the code at the failing input): for the signed-in user with an empty cart,
`addToCart(1, null, 0)` inserts a row of quantity 0, and `addToCart(1, null, -1)` after
`addToCart(1, null, 1)` updates the row to quantity 0 and the row stays in the store. -/
theorem addToCart_stores_nonpositive_quantity :
    (addToCart true true 1 none 0 signedInWorld).1 = .ok true ∧
    (addToCart true true 1 none 0 signedInWorld).2.calls = [.insert 1 1 none 0, .select 1] ∧
    (addToCart true true 1 none 0 signedInWorld).2.gateway.cart_items =
      [{ id := 1, user_id := 1, product_id := 1, variant_id := none, quantity := 0 }] ∧
    newCalls (addToCart true true 1 none 1 signedInWorld).2
      (addToCart true true 1 none (-1) (addToCart true true 1 none 1 signedInWorld).2).2 =
      [.update 1 0, .select 1] ∧
    (addToCart true true 1 none (-1)
      (addToCart true true 1 none 1 signedInWorld).2).2.gateway.cart_items =
      [{ id := 1, user_id := 1, product_id := 1, variant_id := none, quantity := 0 }] := by
  refine ⟨rfl, ?_, ?_, ?_, ?_⟩ <;> decide

end CartContext

namespace CartContext

/-! ## Failed writes -/

/-- C9: when the gateway rejects the write of `addToCart`, `removeFromCart`, `updateQuantity`
or `clearCart`, the call completes without throwing (`addToCart` returns `false`), the cache
and the store are what they were before the call, and the rejected write is the only request
sent: no further write and no reload follows it. -/
theorem failed_write_leaves_cart (w : World) (reloadOk : Bool) (productId : Nat)
    (variantId : Option Nat) (cartItemId : Nat) (quantity : Int) :
    ((addToCart false reloadOk productId variantId quantity w).1 = .ok false ∧
      OnlyOneRequest w (addToCart false reloadOk productId variantId quantity w).2) ∧
    ((removeFromCart false reloadOk cartItemId w).1 = .ok () ∧
      OnlyOneRequest w (removeFromCart false reloadOk cartItemId w).2) ∧
    ((updateQuantity false reloadOk cartItemId quantity w).1 = .ok () ∧
      OnlyOneRequest w (updateQuantity false reloadOk cartItemId quantity w).2) ∧
    ((clearCart false w).1 = .ok () ∧ OnlyOneRequest w (clearCart false w).2) := by
  refine ⟨?_, ?_, ?_, ?_⟩
  · cases hu : w.user with
    | none =>
      refine ⟨by simp [addToCart, hu], ?_, ?_, ?_, [], ?_, ?_⟩ <;> simp [addToCart, hu]
    | some user =>
      cases hf : w.cartItems.find?
          (fun item => decide (item.product_id = productId ∧ item.variant_id = variantId)) with
      | none =>
        rw [addToCart_not_found w false reloadOk user productId variantId quantity hu hf]
        exact ⟨rfl, rfl, rfl, rfl, [.insert user.id productId variantId quantity], rfl,
          by simp⟩
      | some existingItem =>
        rw [addToCart_found w false reloadOk user productId variantId quantity existingItem
          hu hf]
        exact ⟨rfl, rfl, rfl, rfl,
          [.update existingItem.id (existingItem.quantity + quantity)], rfl, by simp⟩
  · refine ⟨by simp [removeFromCart, removeFromCartTry, request], ?_, ?_, ?_,
      [.deleteById cartItemId], ?_, ?_⟩ <;>
      simp [removeFromCart, removeFromCartTry, request]
  · by_cases hq : quantity ≤ 0
    · refine ⟨by simp [updateQuantity, hq, removeFromCart, removeFromCartTry, request],
        ?_, ?_, ?_, [.deleteById cartItemId], ?_, ?_⟩ <;>
        simp [updateQuantity, hq, removeFromCart, removeFromCartTry, request]
    · refine ⟨by simp [updateQuantity, hq, updateQuantityTry, request], ?_, ?_, ?_,
        [.update cartItemId quantity], ?_, ?_⟩ <;>
        simp [updateQuantity, hq, updateQuantityTry, request]
  · cases hu : w.user with
    | none =>
      refine ⟨by simp [clearCart, clearCartTry, hu], ?_, ?_, ?_, [], ?_, ?_⟩ <;>
        simp [clearCart, clearCartTry, hu]
    | some user =>
      refine ⟨by simp [clearCart, clearCartTry, request, hu], ?_, ?_, ?_,
        [.deleteByUser user.id], ?_, ?_⟩ <;>
        simp [clearCart, clearCartTry, request, hu]

/-! ## Session transitions -/

/-- C10: handling a sign-out notification empties the cache and sends nothing to the gateway.
The subscription callback for `SIGNED_OUT` empties the cache whatever session object it gets, and
with the null session of a sign-out the effect on `user` that follows keeps it empty; neither
sends a request (no reload, no delete), and the persisted rows stay as they were. -/
theorem sign_out_clears_cache (w : World) (session : Option Session) (selectOk : Bool) :
    (onAuthStateChange .SIGNED_OUT session w).cartItems = [] ∧
    (onAuthStateChange .SIGNED_OUT session w).calls = w.calls ∧
    (onAuthStateChange .SIGNED_OUT session w).gateway = w.gateway ∧
    (onAuthStateChange .SIGNED_OUT none w).user = none ∧
    (userEffect selectOk (onAuthStateChange .SIGNED_OUT none w)).cartItems = [] ∧
    (userEffect selectOk (onAuthStateChange .SIGNED_OUT none w)).calls = w.calls ∧
    (userEffect selectOk (onAuthStateChange .SIGNED_OUT none w)).gateway = w.gateway := by
  simp [onAuthStateChange, userEffect]

end CartContext

namespace CartContext

/-! ## Repeated adds of one pair -/

theorem filter_map_of_preserved {α : Type} (p : α → Bool) (f : α → α)
    (h : ∀ x, p (f x) = p x) (l : List α) :
    (l.map f).filter p = (l.filter p).map f := by
  induction l with
  | nil => rfl
  | cons x xs ih =>
    cases hx : p x with
    | true => simp [List.filter_cons, h x, hx, ih]
    | false => simp [List.filter_cons, h x, hx, ih]

theorem rowsOf_update (g : Gateway) (id : Nat) (quantity : Int) (user_id : Nat) :
    (g.apply (.update id quantity)).rowsOf user_id =
      (g.rowsOf user_id).map
        (fun r => if r.id = id then { r with quantity := quantity } else r) := by
  unfold Gateway.rowsOf Gateway.apply
  apply filter_map_of_preserved
  intro r
  by_cases h : r.id = id <;> simp [h]

theorem rowsOf_insert_same (g : Gateway) (user_id product_id : Nat) (variant_id : Option Nat)
    (quantity : Int) :
    (g.apply (.insert user_id product_id variant_id quantity)).rowsOf user_id =
      { id := g.nextId, user_id := user_id, product_id := product_id,
        variant_id := variant_id, quantity := quantity } :: g.rowsOf user_id := by
  simp [Gateway.rowsOf, Gateway.apply]

theorem select_eq_map_rowsOf (g : Gateway) (user_id : Nat) :
    g.select user_id = (g.rowsOf user_id).map g.join := rfl

theorem addToCart_merges (w : World) (user : User) (productId : Nat) (variantId : Option Nat)
    (quantity : Int) (r : CartRow) (hu : w.user = some user)
    (hrows : w.gateway.rowsOf user.id = [r]) (hcache : w.cartItems = [w.gateway.join r])
    (hp : r.product_id = productId) (hv : r.variant_id = variantId) :
    (addToCart true true productId variantId quantity w).2.user = some user ∧
    (addToCart true true productId variantId quantity w).2.gateway.rowsOf user.id =
      [{ r with quantity := r.quantity + quantity }] ∧
    (addToCart true true productId variantId quantity w).2.cartItems =
      [(addToCart true true productId variantId quantity w).2.gateway.join
        { r with quantity := r.quantity + quantity }] := by
  have hf : w.cartItems.find?
      (fun item => decide (item.product_id = productId ∧ item.variant_id = variantId)) =
        some (w.gateway.join r) := by
    rw [hcache]
    simp [List.find?_cons, Gateway.join, hp, hv]
  rw [addToCart_found w true true user productId variantId quantity (w.gateway.join r) hu hf]
  have hu1 : (request true
      (.update (w.gateway.join r).id ((w.gateway.join r).quantity + quantity)) w).2.user =
        some user := hu
  rw [if_pos rfl, loadCartItems_ok _ user hu1]
  have hrows1 : (request true
      (.update (w.gateway.join r).id ((w.gateway.join r).quantity + quantity)) w).2.gateway.rowsOf
        user.id = [{ r with quantity := r.quantity + quantity }] := by
    show (w.gateway.apply (.update r.id (r.quantity + quantity))).rowsOf user.id = _
    rw [rowsOf_update, hrows]
    simp
  refine ⟨hu, hrows1, ?_⟩
  show Gateway.select _ user.id = _
  rw [select_eq_map_rowsOf, hrows1]
  rfl

theorem addAll_merges (productId : Nat) (variantId : Option Nat) (quantities : List Int) :
    ∀ (w : World) (user : User) (r : CartRow), w.user = some user →
      w.gateway.rowsOf user.id = [r] → w.cartItems = [w.gateway.join r] →
      r.product_id = productId → r.variant_id = variantId →
      ∃ r1 : CartRow,
        (addAll productId variantId quantities w).gateway.rowsOf user.id = [r1] ∧
        (addAll productId variantId quantities w).cartItems =
          [(addAll productId variantId quantities w).gateway.join r1] ∧
        r1.product_id = productId ∧ r1.variant_id = variantId ∧
        r1.quantity = r.quantity + quantities.sum := by
  induction quantities with
  | nil =>
    intro w user r _ hrows hcache hp hv
    exact ⟨r, hrows, hcache, hp, hv, by simp⟩
  | cons q rest ih =>
    intro w user r hu hrows hcache hp hv
    obtain ⟨hu1, hrows1, hcache1⟩ :=
      addToCart_merges w user productId variantId q r hu hrows hcache hp hv
    obtain ⟨r1, h1, h2, h3, h4, h5⟩ :=
      ih (addToCart true true productId variantId q w).2 user
        { r with quantity := r.quantity + q } hu1 hrows1 hcache1 hp hv
    refine ⟨r1, h1, h2, h3, h4, ?_⟩
    rw [h5]
    simp [add_assoc]

theorem addToCart_first (w : World) (user : User) (productId : Nat) (variantId : Option Nat)
    (quantity : Int) (hu : w.user = some user) (hc : w.cartItems = [])
    (hrows : w.gateway.rowsOf user.id = []) :
    (addToCart true true productId variantId quantity w).2.user = some user ∧
    (addToCart true true productId variantId quantity w).2.gateway.rowsOf user.id =
      [{ id := w.gateway.nextId, user_id := user.id, product_id := productId,
         variant_id := variantId, quantity := quantity }] ∧
    (addToCart true true productId variantId quantity w).2.cartItems =
      [(addToCart true true productId variantId quantity w).2.gateway.join
        { id := w.gateway.nextId, user_id := user.id, product_id := productId,
          variant_id := variantId, quantity := quantity }] := by
  have hf : w.cartItems.find?
      (fun item => decide (item.product_id = productId ∧ item.variant_id = variantId)) =
        none := by
    rw [hc]
    rfl
  rw [addToCart_not_found w true true user productId variantId quantity hu hf]
  have hu1 : (request true (.insert user.id productId variantId quantity) w).2.user =
      some user := hu
  rw [if_pos rfl, loadCartItems_ok _ user hu1]
  have hrows1 : (request true
      (.insert user.id productId variantId quantity) w).2.gateway.rowsOf user.id =
        [{ id := w.gateway.nextId, user_id := user.id, product_id := productId,
           variant_id := variantId, quantity := quantity }] := by
    show (w.gateway.apply (.insert user.id productId variantId quantity)).rowsOf user.id = _
    rw [rowsOf_insert_same, hrows]
  refine ⟨hu, hrows1, ?_⟩
  show Gateway.select _ user.id = _
  rw [select_eq_map_rowsOf, hrows1]
  rfl

/-- C1: starting from an empty cart of an authenticated user (empty cache, no persisted row of
the user), after any non-empty sequence of `addToCart` calls for one (productId, variantId)
pair, each completing before the next starts and every gateway request accepted, the cache
holds exactly one line item; it is the one persisted line item of the user, it carries that
pair, and its quantity is the sum of the requested quantities. -/
theorem addAll_single_line_item (w : World) (user : User) (productId : Nat)
    (variantId : Option Nat) (quantities : List Int) (hempty : EmptyCart w user)
    (hne : quantities ≠ []) :
    ∃ item : CartItem,
      (addAll productId variantId quantities w).cartItems = [item] ∧
      (addAll productId variantId quantities w).gateway.select user.id = [item] ∧
      item.product_id = productId ∧ item.variant_id = variantId ∧
      item.quantity = quantities.sum := by
  obtain ⟨hu, hc, hrows⟩ := hempty
  cases quantities with
  | nil => exact absurd rfl hne
  | cons q rest =>
    obtain ⟨hu1, hrows1, hcache1⟩ :=
      addToCart_first w user productId variantId q hu hc hrows
    obtain ⟨r1, h1, h2, h3, h4, h5⟩ :=
      addAll_merges productId variantId rest (addToCart true true productId variantId q w).2
        user _ hu1 hrows1 hcache1 rfl rfl
    refine ⟨(addAll productId variantId (q :: rest) w).gateway.join r1, h2, ?_, h3, h4, ?_⟩
    · show Gateway.select (addAll productId variantId rest _).gateway user.id = _
      rw [select_eq_map_rowsOf, h1]
      rfl
    · show r1.quantity = _
      rw [h5]
      simp

theorem addAll_single_line_item_witness :
    EmptyCart signedInWorld { id := 1 } ∧ ([2, 3, 1] : List Int) ≠ [] ∧
    ∃ item : CartItem,
      (addAll 1 (some 7) [2, 3, 1] signedInWorld).cartItems = [item] ∧
      (addAll 1 (some 7) [2, 3, 1] signedInWorld).gateway.select 1 = [item] ∧
      item.product_id = 1 ∧ item.variant_id = some 7 ∧
      item.quantity = ([2, 3, 1] : List Int).sum :=
  ⟨⟨rfl, rfl, rfl⟩, by decide,
    addAll_single_line_item signedInWorld { id := 1 } 1 (some 7) [2, 3, 1] ⟨rfl, rfl, rfl⟩
      (by decide)⟩

end CartContext

namespace CartContext

/-! ## The uniqueness invariant -/

theorem pairsOf_update (g : Gateway) (id : Nat) (quantity : Int) (user_id : Nat) :
    (g.apply (.update id quantity)).pairsOf user_id = g.pairsOf user_id := by
  unfold Gateway.pairsOf
  rw [rowsOf_update, List.map_map]
  apply List.map_congr_left
  intro r _
  by_cases h : r.id = id <;> simp [h]

theorem pairsOf_deleteById_sublist (g : Gateway) (id : Nat) (user_id : Nat) :
    List.Sublist ((g.apply (.deleteById id)).pairsOf user_id) (g.pairsOf user_id) := by
  unfold Gateway.pairsOf Gateway.rowsOf Gateway.apply
  exact ((List.filter_sublist _).filter _).map _

theorem rowsOf_deleteByUser (g : Gateway) (user_id : Nat) :
    (g.apply (.deleteByUser user_id)).rowsOf user_id = [] := by
  unfold Gateway.rowsOf Gateway.apply
  simp [List.filter_filter, List.filter_eq_nil_iff]

theorem gateway_request_true (w : World) (c : GatewayCall) :
    (request true c w).2.gateway = w.gateway.apply c := rfl

theorem inSync_reload (w : World) (user : User) (hu : w.user = some user)
    (hp : UniquePairs w.gateway user.id) : InSync (loadCartItems true w) user := by
  rw [loadCartItems_ok w user hu]
  exact ⟨hu, rfl, hp⟩

theorem inSync_addToCart (w : World) (user : User) (writeOk : Bool) (productId : Nat)
    (variantId : Option Nat) (quantity : Int) (h : InSync w user) :
    InSync (addToCart writeOk true productId variantId quantity w).2 user := by
  obtain ⟨hu, hc, hp⟩ := h
  cases hf : w.cartItems.find?
      (fun item => decide (item.product_id = productId ∧ item.variant_id = variantId)) with
  | some existingItem =>
    rw [addToCart_found w writeOk true user productId variantId quantity existingItem hu hf]
    cases writeOk with
    | false => exact ⟨hu, hc, hp⟩
    | true =>
      rw [if_pos rfl]
      refine inSync_reload (request true
        (.update existingItem.id (existingItem.quantity + quantity)) w).2 user hu ?_
      rw [gateway_request_true]
      unfold UniquePairs
      rw [pairsOf_update]
      exact hp
  | none =>
    rw [addToCart_not_found w writeOk true user productId variantId quantity hu hf]
    cases writeOk with
    | false => exact ⟨hu, hc, hp⟩
    | true =>
      rw [if_pos rfl]
      refine inSync_reload (request true
        (.insert user.id productId variantId quantity) w).2 user hu ?_
      rw [gateway_request_true]
      unfold UniquePairs Gateway.pairsOf
      rw [rowsOf_insert_same, List.map_cons, List.nodup_cons]
      refine ⟨?_, hp⟩
      intro hmem
      obtain ⟨r, hr, hpair⟩ := List.mem_map.mp hmem
      have hitem : w.gateway.join r ∈ w.cartItems := by
        rw [hc, select_eq_map_rowsOf]
        exact List.mem_map_of_mem _ hr
      have hnot := List.find?_eq_none.mp hf (w.gateway.join r) hitem
      simp only [Prod.mk.injEq] at hpair
      apply hnot
      simp [Gateway.join, hpair.1, hpair.2]

theorem inSync_removeFromCart (w : World) (user : User) (writeOk : Bool) (cartItemId : Nat)
    (h : InSync w user) : InSync (removeFromCart writeOk true cartItemId w).2 user := by
  obtain ⟨hu, hc, hp⟩ := h
  cases writeOk with
  | false => exact ⟨hu, hc, hp⟩
  | true =>
    show InSync (loadCartItems true (request true (.deleteById cartItemId) w).2) user
    refine inSync_reload (request true (.deleteById cartItemId) w).2 user hu ?_
    rw [gateway_request_true]
    exact List.Nodup.sublist (pairsOf_deleteById_sublist w.gateway cartItemId user.id) hp

theorem inSync_updateQuantity (w : World) (user : User) (writeOk : Bool) (cartItemId : Nat)
    (quantity : Int) (h : InSync w user) :
    InSync (updateQuantity writeOk true cartItemId quantity w).2 user := by
  by_cases hq : quantity ≤ 0
  · have heq : (updateQuantity writeOk true cartItemId quantity w).2 =
        (removeFromCart writeOk true cartItemId w).2 := by
      unfold updateQuantity
      rw [if_pos hq]
      cases removeFromCart writeOk true cartItemId w with
      | mk r w1 => cases r <;> rfl
    rw [heq]
    exact inSync_removeFromCart w user writeOk cartItemId h
  · obtain ⟨hu, hc, hp⟩ := h
    unfold updateQuantity
    rw [if_neg hq]
    cases writeOk with
    | false => exact ⟨hu, hc, hp⟩
    | true =>
      show InSync (loadCartItems true (request true (.update cartItemId quantity) w).2) user
      refine inSync_reload (request true (.update cartItemId quantity) w).2 user hu ?_
      rw [gateway_request_true]
      unfold UniquePairs
      rw [pairsOf_update]
      exact hp

theorem inSync_clearCart (w : World) (user : User) (writeOk : Bool) (h : InSync w user) :
    InSync (clearCart writeOk w).2 user := by
  obtain ⟨hu, hc, hp⟩ := h
  unfold clearCart clearCartTry
  simp only [hu]
  cases writeOk with
  | false => exact ⟨hu, hc, hp⟩
  | true =>
    refine ⟨hu, ?_, ?_⟩
    · show [] = Gateway.select (w.gateway.apply (.deleteByUser user.id)) user.id
      rw [select_eq_map_rowsOf, rowsOf_deleteByUser]
      rfl
    · show UniquePairs (w.gateway.apply (.deleteByUser user.id)) user.id
      unfold UniquePairs Gateway.pairsOf
      rw [rowsOf_deleteByUser]
      exact List.nodup_nil

theorem inSync_run (s : Step) (w : World) (user : User) (hr : s.reloadOk = true)
    (h : InSync w user) : InSync (s.run w) user := by
  unfold Step.run
  rw [hr]
  cases s.action with
  | addToCart productId variantId quantity =>
    exact inSync_addToCart w user s.writeOk productId variantId quantity h
  | removeFromCart cartItemId => exact inSync_removeFromCart w user s.writeOk cartItemId h
  | updateQuantity cartItemId quantity =>
    exact inSync_updateQuantity w user s.writeOk cartItemId quantity h
  | clearCart => exact inSync_clearCart w user s.writeOk h

theorem inSync_runSteps (steps : List Step) :
    ∀ (w : World) (user : User), (∀ s ∈ steps, s.reloadOk = true) → InSync w user →
      InSync (runSteps steps w) user := by
  induction steps with
  | nil =>
    intro w user _ h
    exact h
  | cons s rest ih =>
    intro w user hall h
    exact ih (s.run w) user (fun t ht => hall t (List.mem_cons_of_mem _ ht))
      (inSync_run s w user (hall s (List.mem_cons_self _ _)) h)

/-- C7 (as stated, refuted): the persisted cart does not stay unique per (product, variant)
pair under every pattern of gateway failures. From the empty cart of user 1, two calls
`addToCart(1, null, 1)` whose inserts are accepted and whose reloads fail leave two persisted
rows for the pair (1, null): the second call looks the pair up in a cache that is still
empty. -/
theorem uniquePairs_fails_after_failed_reload :
    ¬ (∀ (w : World) (user : User) (steps : List Step), EmptyCart w user →
        UniquePairs (runSteps steps w).gateway user.id) := by
  intro h
  have h1 := h signedInWorld { id := 1 } staleReloadSteps ⟨rfl, rfl, rfl⟩
  revert h1
  decide

/-- C7 (amended): in every state reached from the empty cart of an authenticated user by a
sequence of `addToCart`, `removeFromCart`, `updateQuantity` and `clearCart` calls, whichever of
the gateway writes are accepted or rejected, provided every reload that is sent succeeds, the
persisted cart holds at most one line item per (product, variant) pair, and the cache equals
what a reload would return. -/
theorem uniquePairs_of_reloads_ok (w : World) (user : User) (steps : List Step)
    (hempty : EmptyCart w user) (hreload : ∀ s ∈ steps, s.reloadOk = true) :
    UniquePairs (runSteps steps w).gateway user.id ∧
    (runSteps steps w).cartItems = (runSteps steps w).gateway.select user.id := by
  obtain ⟨hu, hc, hrows⟩ := hempty
  have h0 : InSync w user := by
    refine ⟨hu, ?_, ?_⟩
    · rw [hc, select_eq_map_rowsOf, hrows]
      rfl
    · unfold UniquePairs Gateway.pairsOf
      rw [hrows]
      exact List.nodup_nil
  obtain ⟨_, h2, h3⟩ := inSync_runSteps steps w user hreload h0
  exact ⟨h3, h2⟩

theorem uniquePairs_of_reloads_ok_witness :
    EmptyCart signedInWorld { id := 1 } ∧ (∀ s ∈ mixedSteps, s.reloadOk = true) ∧
    UniquePairs (runSteps mixedSteps signedInWorld).gateway 1 ∧
    (runSteps mixedSteps signedInWorld).cartItems =
      (runSteps mixedSteps signedInWorld).gateway.select 1 :=
  ⟨⟨rfl, rfl, rfl⟩, by decide,
    uniquePairs_of_reloads_ok signedInWorld { id := 1 } mixedSteps ⟨rfl, rfl, rfl⟩
      (by decide)⟩

end CartContext

namespace CartContext

/-! ## Clearing the cart -/

/-- C11: for an authenticated user, a `clearCart` whose delete is accepted completes normally,
leaves no persisted line item of that user, leaves the persisted line items of every other
user as they were, empties the cache, and sends the delete as its only request: no reload. -/
theorem clearCart_deletes_own_rows (w : World) (user : User) (hu : w.user = some user) :
    (clearCart true w).1 = .ok () ∧
    (clearCart true w).2.gateway.rowsOf user.id = [] ∧
    (∀ other : Nat, other ≠ user.id →
      (clearCart true w).2.gateway.rowsOf other = w.gateway.rowsOf other) ∧
    (clearCart true w).2.cartItems = [] ∧
    (clearCart true w).2.calls = w.calls ++ [.deleteByUser user.id] := by
  have h : clearCart true w =
      (.ok (), { (request true (.deleteByUser user.id) w).2 with cartItems := [] }) := by
    simp [clearCart, clearCartTry, hu, request]
  rw [h]
  refine ⟨rfl, ?_, ?_, rfl, rfl⟩
  · show (w.gateway.apply (.deleteByUser user.id)).rowsOf user.id = []
    exact rowsOf_deleteByUser w.gateway user.id
  · intro other hne
    show (w.gateway.apply (.deleteByUser user.id)).rowsOf other = w.gateway.rowsOf other
    unfold Gateway.rowsOf Gateway.apply
    simp only [List.filter_filter]
    apply List.filter_congr
    intro r _
    by_cases hr : r.user_id = other
    · simp [hr, hne]
    · simp [hr]

theorem clearCart_deletes_own_rows_witness :
    sharedStoreWorld.user = some { id := 1 } ∧
    (clearCart true sharedStoreWorld).2.gateway.cart_items =
      [{ id := 2, user_id := 2, product_id := 1, variant_id := none, quantity := 4 }] ∧
    (clearCart true sharedStoreWorld).2.cartItems = [] ∧
    (clearCart true sharedStoreWorld).2.calls = [.deleteByUser 1] :=
  ⟨rfl, by decide,
    (clearCart_deletes_own_rows sharedStoreWorld { id := 1 } rfl).2.2.2.1,
    (clearCart_deletes_own_rows sharedStoreWorld { id := 1 } rfl).2.2.2.2⟩

end CartContext

namespace CartPage

open CartContext SellAuth

/-! ## Checkout -/

theorem toEntry_eq_none_iff (item : CartItem) :
    toEntry item = none ↔ truthy (externalProductId item) = false := by
  unfold toEntry externalProductId
  cases h : textOr (item.variant.bind (fun v => v.sellauth_product_id))
      (item.product.bind (fun p => p.sellauth_product_id)) with
  | none => simp [truthy]
  | some text =>
    by_cases ht : text = ""
    · simp [truthy, ht]
    · simp [truthy, ht]

/-- C12 (as stated, refuted): `handleCheckout` does not fail fast for every shop identifier
that is zero. For the configured cart of user 1 and the identifier `00`, which `parseInt` reads
as 0, the guard lets the call through: `isCheckingOut` is set, the widget is invoked with
`parseInt('00')` as `shopId`, and the callback that clears the cart is scheduled. -/
theorem handleCheckout_accepts_double_zero :
    ¬ (∀ (shopId : Option String) (events : List Event) (checkout : CheckoutBehaviour)
        (pg : Page),
        (pg.cart.cartItems = [] ∨ pg.cart.user = none ∨ shopId = none ∨ shopId = some "" ∨
          ZeroShopId shopId) →
        ∃ notice : String,
          handleCheckout shopId events checkout pg =
            (.returned (),
              { pg with
                browser := { pg.browser with alerts := pg.browser.alerts ++ [notice] } })) ∧
    parseIntValue "00" = some 0 ∧
    (handleCheckout (some "00") [] .returns configuredPage).2.browser.widgetCalls =
      [[.options (.parseInt "00")
          [{ productId := .parseInt "5", quantity := 2, variantId := none }] true]] ∧
    (handleCheckout (some "00") [] .returns configuredPage).2.isCheckingOut = true ∧
    (handleCheckout (some "00") [] .returns configuredPage).2.scheduled =
      [{ delay := 1000, user := some { id := 1 } }] := by
  refine ⟨?_, by decide, by decide, by decide, by decide⟩
  intro h
  obtain ⟨notice, h1⟩ := h (some "00") [] .returns configuredPage
    (Or.inr (Or.inr (Or.inr (Or.inr (by decide)))))
  have h2 : (handleCheckout (some "00") [] .returns configuredPage).2.browser.widgetCalls =
      configuredPage.browser.widgetCalls := by
    rw [h1]
  revert h2
  decide

/-- C12 (amended): when the cart is empty, or there is no authenticated user, or the
configured shop identifier is missing (`undefined` or `''`) or is the text `'0'`,
`handleCheckout` returns after an alert and changes nothing else: the loader is not called (no
promise, no script), the widget is not invoked, `isCheckingOut` is not set, and the cart and
the registered callbacks are as before. -/
theorem handleCheckout_fails_fast (shopId : Option String) (events : List Event)
    (checkout : CheckoutBehaviour) (pg : Page)
    (h : pg.cart.cartItems = [] ∨ pg.cart.user = none ∨ shopId = none ∨ shopId = some "" ∨
      shopId = some "0") :
    ∃ notice : String,
      handleCheckout shopId events checkout pg =
        (.returned (),
          { pg with browser := { pg.browser with alerts := pg.browser.alerts ++ [notice] } }) := by
  unfold handleCheckout
  by_cases h1 : pg.cart.cartItems.length = 0
  · exact ⟨_, by rw [if_pos h1]⟩
  · rw [if_neg h1]
    by_cases h2 : pg.cart.user = none
    · exact ⟨_, by rw [if_pos h2]⟩
    · rw [if_neg h2]
      rcases h with h | h | h | h | h
      · exact absurd (by rw [h]; rfl) h1
      · exact absurd h h2
      · subst h
        exact ⟨_, rfl⟩
      · subst h
        exact ⟨_, rfl⟩
      · subst h
        exact ⟨_, rfl⟩

theorem handleCheckout_fails_fast_witness :
    (configuredPage.cart.cartItems = [] ∨ configuredPage.cart.user = none ∨
      (some "0" : Option String) = none ∨ (some "0" : Option String) = some "" ∨
      (some "0" : Option String) = some "0") ∧
    ∃ notice : String,
      handleCheckout (some "0") [] .returns configuredPage =
        (.returned (),
          { configuredPage with
            browser := { configuredPage.browser with
              alerts := configuredPage.browser.alerts ++ [notice] } }) :=
  ⟨Or.inr (Or.inr (Or.inr (Or.inr rfl))),
    handleCheckout_fails_fast (some "0") [] .returns configuredPage
      (Or.inr (Or.inr (Or.inr (Or.inr rfl))))⟩

/-- C13 (the code at the failing input): for the cart of one line item without a variant whose
product carries the external product id `5` and the external variant id `9`, the entry that
`handleCheckout` hands to the widget has the product id `parseInt('5')` and the quantity 2 but
no `variantId`: the product's external variant id is not used. -/
theorem handleCheckout_ignores_product_variant_id :
    configuredPage.cart.cartItems.map
        (fun item => (item.variant, item.product.bind (fun p => p.sellauth_variant_id))) =
      [(none, some "9")] ∧
    configuredPage.cart.cartItems.filterMap toEntry =
      [{ productId := .parseInt "5", quantity := 2, variantId := none }] ∧
    (handleCheckout (some "1") [] .returns configuredPage).2.browser.widgetCalls =
      [[.options (.parseInt "1")
          [{ productId := .parseInt "5", quantity := 2, variantId := none }] true]] := by
  decide

end CartPage

namespace CartPage

open CartContext SellAuth

/-- C14: for a signed-in user, a configured shop identifier and a non-empty cart in which no
line item resolves an external product id, the mapped array is empty and, however the load of
the widget goes and whatever the widget would do, `handleCheckout` does not invoke the widget,
leaves the cart as it was and registers no clear-cart callback; when the call completes it
has returned with `isCheckingOut` reset to false, and when the widget is available it ends
with the notice that no cart item has a SellAuth product id. -/
theorem handleCheckout_without_external_ids (shopId : String) (events : List Event)
    (checkout : CheckoutBehaviour) (pg : Page) (hne : pg.cart.cartItems ≠ [])
    (hu : pg.cart.user ≠ none) (hs : shopId ≠ "" ∧ shopId ≠ "0")
    (hnone : ∀ item ∈ pg.cart.cartItems, truthy (externalProductId item) = false) :
    pg.cart.cartItems.filterMap toEntry = [] ∧
    (handleCheckout (some shopId) events checkout pg).2.browser.widgetCalls =
      pg.browser.widgetCalls ∧
    (handleCheckout (some shopId) events checkout pg).2.cart = pg.cart ∧
    (handleCheckout (some shopId) events checkout pg).2.scheduled = pg.scheduled ∧
    ((handleCheckout (some shopId) events checkout pg).1 ≠ .suspended →
      (handleCheckout (some shopId) events checkout pg).1 = .returned () ∧
      (handleCheckout (some shopId) events checkout pg).2.isCheckingOut = false) ∧
    (∀ l : Loader,
      awaitPromise (initializeSellAuth pg.browser.loader).1 events
        (initializeSellAuth pg.browser.loader).2 = (.returned (), l) →
      l.sellAuthEmbed = true →
      handleCheckout (some shopId) events checkout pg =
        (.returned (),
          { pg with
            browser := { pg.browser with
              loader := l
              alerts := pg.browser.alerts ++
                ["None of your cart items have SellAuth product IDs configured"] }
            isCheckingOut := false })) := by
  have hmap : pg.cart.cartItems.filterMap toEntry = [] := by
    rw [List.filterMap_eq_nil_iff]
    intro item hitem
    exact (toEntry_eq_none_iff item).mpr (hnone item hitem)
  have hlen : ¬ pg.cart.cartItems.length = 0 := by
    intro h
    exact hne (List.length_eq_zero.mp h)
  have hshop : ¬ (shopId = "" ∨ shopId = "0") := by
    intro h
    rcases h with h | h
    · exact hs.1 h
    · exact hs.2 h
  have hmain : handleCheckout (some shopId) events checkout pg =
      match handleCheckoutTry shopId events checkout { pg with isCheckingOut := true } with
      | (.threw _, pg1) =>
        (.returned (),
          { pg1 with
            browser := { pg1.browser with
              alerts := pg1.browser.alerts ++
                ["Checkout is loading, please try again in a moment."] }
            isCheckingOut := false })
      | (.returned r, pg1) => (.returned r, pg1)
      | (.suspended, pg1) => (.suspended, pg1) := by
    unfold handleCheckout
    rw [if_neg hlen, if_neg hu]
    simp only [if_neg hshop]
  rw [hmain]
  unfold handleCheckoutTry
  simp only
  cases hA : awaitPromise (initializeSellAuth pg.browser.loader).1 events
      (initializeSellAuth pg.browser.loader).2 with
  | mk c l =>
    cases c with
    | threw error =>
      refine ⟨hmap, rfl, rfl, rfl, fun _ => ⟨rfl, rfl⟩, ?_⟩
      intro l1 h1
      exact absurd (congrArg Prod.fst h1) (by simp)
    | suspended =>
      refine ⟨hmap, rfl, rfl, rfl, fun h => absurd rfl h, ?_⟩
      intro l1 h1
      exact absurd (congrArg Prod.fst h1) (by simp)
    | returned u =>
      cases hE : l.sellAuthEmbed with
      | false =>
        simp only [hE, if_true]
        refine ⟨by trivial, trivial, trivial, trivial, fun _ => ⟨trivial, trivial⟩, ?_⟩
        intro l1 h1 h2
        have hl : l = l1 := congrArg Prod.snd h1
        rw [← hl, hE] at h2
        exact absurd h2 (by decide)
      | true =>
        simp only [hE, hmap, List.length_nil, if_true, Bool.true_eq_false, if_false]
        refine ⟨by trivial, trivial, trivial, trivial, fun _ => ⟨trivial, trivial⟩, ?_⟩
        intro l1 h1 _
        have hl : l = l1 := congrArg Prod.snd h1
        rw [← hl]

theorem handleCheckout_without_external_ids_witness :
    unconfiguredPage.cart.cartItems ≠ [] ∧ unconfiguredPage.cart.user ≠ none ∧
    (("1" : String) ≠ "" ∧ ("1" : String) ≠ "0") ∧
    (∀ item ∈ unconfiguredPage.cart.cartItems, truthy (externalProductId item) = false) ∧
    unconfiguredPage.cart.cartItems.filterMap toEntry = [] ∧
    (handleCheckout (some "1") [] .returns unconfiguredPage).2.browser.widgetCalls =
      unconfiguredPage.browser.widgetCalls ∧
    (handleCheckout (some "1") [] .returns unconfiguredPage).2.browser.alerts =
      ["None of your cart items have SellAuth product IDs configured"] :=
  ⟨by decide, by decide, by decide, by decide,
    (handleCheckout_without_external_ids "1" [] .returns unconfiguredPage (by decide)
      (by decide) (by decide) (by decide)).1,
    (handleCheckout_without_external_ids "1" [] .returns unconfiguredPage (by decide)
      (by decide) (by decide) (by decide)).2.1,
    by decide⟩

/-- C15 (the code at the failing input): user 1 checks out the configured cart with the widget
ready, and the widget's `checkout` returns a promise that rejects. `handleCheckout` does not
await that promise: it returns without the retry notice and with the clear-cart callback
registered for 1000 ms, and when the callback runs the persisted rows of the user are deleted
and the cache is emptied. A `checkout` that throws leaves no callback behind. -/
theorem handleCheckout_clears_cart_after_rejection :
    (handleCheckout (some "1") [] .rejects configuredPage).1 = .returned () ∧
    (handleCheckout (some "1") [] .rejects configuredPage).2.browser.alerts = [] ∧
    (handleCheckout (some "1") [] .rejects configuredPage).2.scheduled =
      [{ delay := 1000, user := some { id := 1 } }] ∧
    (afterCheckout true { delay := 1000, user := some { id := 1 } }
      (handleCheckout (some "1") [] .rejects configuredPage).2).cart.calls =
      [.deleteByUser 1] ∧
    (afterCheckout true { delay := 1000, user := some { id := 1 } }
      (handleCheckout (some "1") [] .rejects configuredPage).2).cart.gateway.cart_items = [] ∧
    (afterCheckout true { delay := 1000, user := some { id := 1 } }
      (handleCheckout (some "1") [] .rejects configuredPage).2).cart.cartItems = [] ∧
    (handleCheckout (some "1") [] .throws configuredPage).2.scheduled = [] := by
  decide

/-- C16 (the code at the failing input): for the configured cart and the shop identifier `1`,
`handleCheckout` calls the widget's `checkout` with one argument, the options object
`{ shopId, cart, modal: true }`, in first position, where `openSellAuthCheckout` passes `null`
first and its options object second. -/
theorem handleCheckout_passes_options_first :
    (handleCheckout (some "1") [] .returns configuredPage).2.browser.widgetCalls =
      [[.options (.parseInt "1")
          [{ productId := .parseInt "5", quantity := 2, variantId := none }] true]] ∧
    (openSellAuthCheckout none [] .returns "1" "5" (some "9") 1 readyBrowser).2.widgetCalls =
      [[.null,
        .options (.number "1")
          [{ productId := .number "5", quantity := 1, variantId := some (.number "9") }]
          false]] := by
  decide

end CartPage

namespace SellAuth

/-- C19 (the code at the failing input): with no declaration of `fallbackTokenUrl`, as in the
sources, every failure inside `openSellAuthCheckout` ends in a rejection with the
`ReferenceError` of that identifier, raised in the `catch` block before the notice: no alert
is shown and `null` is not returned. So it goes when the script fails to load, when the
capability is absent after the load, when the widget's `checkout` throws and when it rejects.
Were the identifier bound to a URL, the same failure would show the notice and return
`null`. -/
theorem openSellAuthCheckout_rejects_on_failure :
    openSellAuthCheckout none [.scriptError 0] .returns "1" "5" none 1 CartPage.loadingBrowser =
      (.threw (.referenceError "fallbackTokenUrl"),
        { CartPage.loadingBrowser with
          loader := Loader.failed 0 "Failed to load SellAuth script"
            [{ matchesSelector := true, promise := some 0 }] 0 }) ∧
    (openSellAuthCheckout none [] .returns "1" "5" none 1 lostCapabilityBrowser).1 =
      .threw (.referenceError "fallbackTokenUrl") ∧
    (openSellAuthCheckout none [] .returns "1" "5" none 1 lostCapabilityBrowser).2.alerts = [] ∧
    (openSellAuthCheckout none [] .throws "1" "5" none 1 CartPage.readyBrowser).1 =
      .threw (.referenceError "fallbackTokenUrl") ∧
    (openSellAuthCheckout none [] .throws "1" "5" none 1 CartPage.readyBrowser).2.alerts = [] ∧
    (openSellAuthCheckout none [] .rejects "1" "5" none 1 CartPage.readyBrowser).1 =
      .threw (.referenceError "fallbackTokenUrl") ∧
    (openSellAuthCheckout none [] .rejects "1" "5" none 1 CartPage.readyBrowser).2.alerts = [] ∧
    (openSellAuthCheckout (some "https://example.test/checkout") [] .rejects "1" "5" none 1
      CartPage.readyBrowser).1 = .returned .null ∧
    (openSellAuthCheckout (some "https://example.test/checkout") [] .rejects "1" "5" none 1
      CartPage.readyBrowser).2.alerts =
      ["Checkout is loading, please try again in a moment."] := by
  decide

end SellAuth

namespace SellAuth

/-! ## Timing of the loader -/

theorem tick_polling_before (now d deadline : Nat) (message : String) (scripts : List Script)
    (hd : now < d) (hD : now + 1 < deadline) :
    (Loader.polling now d deadline message scripts).tick =
      Loader.polling (now + 1) (if d = now + 1 then d + 100 else d) deadline message
        scripts := by
  have hD1 : deadline ≠ now + 1 := by omega
  by_cases h : d = now + 1
  · subst h
    simp [Loader.tick, Loader.polling, Loader.fire, Loader.runTask, hD1]
  · simp [Loader.tick, Loader.polling, Loader.fire, Loader.runTask, hD1, h]

theorem tick_polling_deadline (now d : Nat) (message : String) (scripts : List Script)
    (hd : now < d) :
    (Loader.polling now d (now + 1) message scripts).tick =
      Loader.failed (now + 1) message scripts 2 := by
  by_cases h : d = now + 1
  · subst h
    simp [Loader.tick, Loader.polling, Loader.fire, Loader.runTask, Loader.clearTimer,
      Loader.settle, Loader.failed]
  · simp [Loader.tick, Loader.polling, Loader.fire, Loader.runTask, Loader.clearTimer,
      Loader.settle, Loader.failed, h]

theorem tick_failed (now : Nat) (message : String) (scripts : List Script) (n : Nat) :
    (Loader.failed now message scripts n).tick = Loader.failed (now + 1) message scripts n := by
  simp [Loader.tick, Loader.failed]

theorem tick_inserted (now : Nat) (scripts : List Script) :
    (Loader.inserted now scripts).tick = Loader.inserted (now + 1) scripts := by
  simp [Loader.tick, Loader.inserted]

theorem ticks_failed (k : Nat) :
    ∀ (now : Nat) (message : String) (scripts : List Script) (n : Nat),
      (Loader.failed now message scripts n).ticks k =
        Loader.failed (now + k) message scripts n := by
  induction k with
  | zero => intros; rfl
  | succ k ih =>
    intro now message scripts n
    rw [Loader.ticks, tick_failed, ih]
    congr 1
    omega

theorem ticks_inserted (k : Nat) :
    ∀ (now : Nat) (scripts : List Script),
      (Loader.inserted now scripts).ticks k = Loader.inserted (now + k) scripts := by
  induction k with
  | zero => intros; rfl
  | succ k ih =>
    intro now scripts
    rw [Loader.ticks, tick_inserted, ih]
    congr 1
    omega

theorem ticks_polling_before (k : Nat) :
    ∀ (now d deadline : Nat) (message : String) (scripts : List Script),
      now < d → now + k < deadline →
      ∃ d1, now + k < d1 ∧
        (Loader.polling now d deadline message scripts).ticks k =
          Loader.polling (now + k) d1 deadline message scripts := by
  induction k with
  | zero =>
    intro now d deadline message scripts hd _
    exact ⟨d, hd, rfl⟩
  | succ k ih =>
    intro now d deadline message scripts hd hD
    have hstep := tick_polling_before now d deadline message scripts hd (by omega)
    have hd1 : now + 1 < (if d = now + 1 then d + 100 else d) := by
      split <;> omega
    obtain ⟨d1, h1, h2⟩ := ih (now + 1) _ deadline message scripts hd1 (by omega)
    refine ⟨d1, by omega, ?_⟩
    rw [Loader.ticks, hstep, h2]
    congr 1
    omega

theorem ticks_add (a : Nat) :
    ∀ (b : Nat) (l : Loader), l.ticks (a + b) = (l.ticks a).ticks b := by
  induction a with
  | zero => intro b l; simp [Loader.ticks]
  | succ a ih =>
    intro b l
    rw [show a + 1 + b = (a + b) + 1 by omega, Loader.ticks, Loader.ticks, ih]

theorem stateOf_ticks_polling (now limit : Nat) (message : String) (scripts : List Script)
    (k : Nat) (hl : 100 ≤ limit) :
    ((Loader.polling now (now + 100) (now + limit) message scripts).ticks k).stateOf 0 =
      some (if k < limit then .pending else .rejected message) := by
  by_cases hk : k < limit
  · obtain ⟨d1, _, h2⟩ := ticks_polling_before k now (now + 100) (now + limit) message scripts
      (by omega) (by omega)
    rw [h2, if_pos hk]
    rfl
  · rw [if_neg hk]
    obtain ⟨d1, h1, h2⟩ := ticks_polling_before (limit - 1) now (now + 100) (now + limit)
      message scripts (by omega) (by omega)
    have hk1 : k = (limit - 1) + (1 + (k - limit)) := by omega
    have hdl : now + limit = (now + (limit - 1)) + 1 := by omega
    rw [hk1, ticks_add, h2, ticks_add, hdl]
    have hone : ∀ l : Loader, l.ticks 1 = l.tick := fun _ => rfl
    rw [hone, tick_polling_deadline _ _ _ _ h1, ticks_failed]
    rfl

end SellAuth

namespace SellAuth

theorem initializeSellAuth_fresh_existing (now : Nat) (scripts : List Script)
    (h : scripts.any (fun s => s.matchesSelector) = true) :
    initializeSellAuth (Loader.fresh now scripts) =
      (0, Loader.polling now (now + 100) (now + 10000) "SellAuth script timeout" scripts) := by
  simp only [initializeSellAuth, Loader.fresh, Loader.newPromise, h]
  rfl

theorem initializeSellAuth_fresh_absent (now : Nat) (scripts : List Script)
    (h : scripts.any (fun s => s.matchesSelector) = false) :
    initializeSellAuth (Loader.fresh now scripts) = (0, Loader.inserted now scripts) := by
  simp only [initializeSellAuth, Loader.fresh, Loader.newPromise, h]
  rfl

theorem step_scriptLoad_inserted (now : Nat) (scripts : List Script) :
    (Loader.inserted now scripts).step (.scriptLoad scripts.length) =
      Loader.polling now (now + 100) (now + 5000) "SellAuth embed not initialized"
        (scripts ++ [{ matchesSelector := true, promise := some 0 }]) := by
  simp [Loader.step, Loader.inserted, Loader.startPolling, Loader.addTimer, Loader.polling]

theorem step_scriptError_inserted (now : Nat) (scripts : List Script) :
    (Loader.inserted now scripts).step (.scriptError scripts.length) =
      Loader.failed now "Failed to load SellAuth script"
        (scripts ++ [{ matchesSelector := true, promise := some 0 }]) 0 := by
  simp [Loader.step, Loader.inserted, Loader.settle, Loader.failed]

end SellAuth

namespace SellAuth

/-! ## One load per page -/

theorem samePage_refl (l : Loader) : l.SamePage l := ⟨rfl, rfl, rfl⟩

theorem samePage_trans {l l1 l2 : Loader} (h1 : l.SamePage l1) (h2 : l1.SamePage l2) :
    l.SamePage l2 :=
  ⟨h2.1.trans h1.1, h2.2.1.trans h1.2.1, h2.2.2.trans h1.2.2⟩

theorem samePage_settle (l : Loader) (promise : Nat) (s : PromiseState) :
    l.SamePage (l.settle promise s) := by
  unfold Loader.settle
  split
  · exact ⟨rfl, rfl, rfl⟩
  · exact samePage_refl l

theorem samePage_clearTimer (l : Loader) (id : Nat) : l.SamePage (l.clearTimer id) :=
  ⟨rfl, rfl, rfl⟩

theorem samePage_startPolling (l : Loader) (promise limit : Nat) (message : String) :
    l.SamePage (l.startPolling promise limit message) :=
  ⟨rfl, rfl, rfl⟩

theorem samePage_runTask (l : Loader) (t : Timer) : l.SamePage (l.runTask t) := by
  unfold Loader.runTask
  cases t.task with
  | check promise =>
    simp only
    split
    · exact samePage_trans (samePage_clearTimer l t.id) (samePage_settle _ _ _)
    · exact samePage_refl l
  | deadline promise interval message =>
    simp only
    split
    · exact samePage_clearTimer l interval
    · exact samePage_trans (samePage_clearTimer l interval) (samePage_settle _ _ _)

theorem samePage_fire (l : Loader) (t : Timer) : l.SamePage (l.fire t) := by
  unfold Loader.fire
  split
  · cases t.period with
    | some period =>
      have h1 : l.SamePage { l with
          timers := l.timers.map
            (fun x => if x.id = t.id then { x with due := x.due + period } else x) } :=
        ⟨rfl, rfl, rfl⟩
      exact samePage_trans h1 (samePage_runTask _ t)
    | none => exact samePage_trans (samePage_clearTimer l t.id) (samePage_runTask _ t)
  · exact samePage_refl l

theorem samePage_foldl_fire (ts : List Timer) :
    ∀ l : Loader, l.SamePage (ts.foldl Loader.fire l) := by
  induction ts with
  | nil => exact samePage_refl
  | cons t rest ih =>
    intro l
    exact samePage_trans (samePage_fire l t) (ih (l.fire t))

theorem samePage_tick (l : Loader) : l.SamePage l.tick := by
  unfold Loader.tick
  have h1 : l.SamePage { l with now := l.now + 1 } := ⟨rfl, rfl, rfl⟩
  exact samePage_trans h1 (samePage_foldl_fire _ _)

theorem samePage_step (l : Loader) (e : Event) (he : e ≠ .capabilityAppears)
    (habsent : l.sellAuthEmbed = false) : l.SamePage (l.step e) := by
  cases e with
  | tick => exact samePage_tick l
  | scriptLoad index =>
    simp only [Loader.step]
    split
    · exact samePage_startPolling _ _ _ _
    · exact samePage_refl l
  | scriptError index =>
    simp only [Loader.step]
    split
    · exact samePage_settle _ _ _
    · exact samePage_refl l
  | capabilityAppears => exact absurd rfl he
  | capabilityRemoved => exact ⟨habsent.symm, rfl, rfl⟩

theorem initializeSellAuth_started (l : Loader) (promise : Nat)
    (habsent : l.sellAuthEmbed = false) (hstarted : l.sellAuthLoadPromise = some promise) :
    initializeSellAuth l = (promise, l) := by
  simp [initializeSellAuth, habsent, hstarted]

theorem run_started (actions : List Action) :
    ∀ (l : Loader) (promise : Nat), l.sellAuthEmbed = false →
      l.sellAuthLoadPromise = some promise →
      (∀ a ∈ actions, a ≠ .event .capabilityAppears) →
      (∀ q ∈ (run actions l).1, q = promise) ∧ l.SamePage (run actions l).2 := by
  induction actions with
  | nil =>
    intro l promise _ _ _
    exact ⟨by simp [run], samePage_refl l⟩
  | cons a rest ih =>
    intro l promise habsent hstarted hquiet
    have hrest : ∀ b ∈ rest, b ≠ .event .capabilityAppears :=
      fun b hb => hquiet b (List.mem_cons_of_mem _ hb)
    cases a with
    | call =>
      have hcall := initializeSellAuth_started l promise habsent hstarted
      obtain ⟨h1, h2⟩ := ih l promise habsent hstarted hrest
      simp only [run, hcall]
      refine ⟨?_, h2⟩
      intro q hq
      rcases List.mem_cons.mp hq with rfl | hq
      · rfl
      · exact h1 q hq
    | event e =>
      have he : e ≠ .capabilityAppears := by
        intro h
        exact hquiet (.event e) (List.mem_cons_self _ _) (by rw [h])
      have hs := samePage_step l e he habsent
      obtain ⟨h1, h2⟩ := ih (l.step e) promise (hs.1.trans habsent) (hs.2.1.trans hstarted) hrest
      simp only [run]
      exact ⟨h1, samePage_trans hs h2⟩

theorem initializeSellAuth_first (l : Loader) (habsent : l.sellAuthEmbed = false)
    (hnone : l.sellAuthLoadPromise = none) :
    (initializeSellAuth l).2.sellAuthEmbed = false ∧
    (initializeSellAuth l).2.sellAuthLoadPromise = some (initializeSellAuth l).1 ∧
    (initializeSellAuth l).2.scripts =
      if l.scripts.any (fun s => s.matchesSelector) then l.scripts
      else l.scripts ++ [{ matchesSelector := true, promise := some (initializeSellAuth l).1 }] := by
  cases h : l.scripts.any (fun s => s.matchesSelector) <;>
    simp only [initializeSellAuth, habsent, hnone, Loader.newPromise, h] <;>
    exact ⟨rfl, rfl, rfl⟩

theorem run_not_started (actions : List Action) :
    ∀ (l : Loader), l.sellAuthEmbed = false → l.sellAuthLoadPromise = none →
      (∀ a ∈ actions, a ≠ .event .capabilityAppears) →
      (∃ promise, ∀ q ∈ (run actions l).1, q = promise) ∧
      (if (run actions l).1 ≠ [] ∧ l.scripts.any (fun s => s.matchesSelector) = false then
        (run actions l).2.scripts.length = l.scripts.length + 1
      else (run actions l).2.scripts = l.scripts) := by
  induction actions with
  | nil =>
    intro l _ _ _
    exact ⟨⟨0, by simp [run]⟩, by simp [run]⟩
  | cons a rest ih =>
    intro l habsent hnone hquiet
    have hrest : ∀ b ∈ rest, b ≠ .event .capabilityAppears :=
      fun b hb => hquiet b (List.mem_cons_of_mem _ hb)
    cases a with
    | call =>
      obtain ⟨h1, h2, h3⟩ := initializeSellAuth_first l habsent hnone
      obtain ⟨h4, h5⟩ := run_started rest (initializeSellAuth l).2 (initializeSellAuth l).1
        h1 h2 hrest
      simp only [run]
      refine ⟨⟨(initializeSellAuth l).1, ?_⟩, ?_⟩
      · intro q hq
        rcases List.mem_cons.mp hq with rfl | hq
        · rfl
        · exact h4 q hq
      · rw [h5.2.2, h3]
        cases h : l.scripts.any (fun s => s.matchesSelector) <;> simp
    | event e =>
      have he : e ≠ .capabilityAppears := by
        intro h
        exact hquiet (.event e) (List.mem_cons_self _ _) (by rw [h])
      have hs := samePage_step l e he habsent
      obtain ⟨h1, h2⟩ := ih (l.step e) (hs.1.trans habsent) (hs.2.1.trans hnone) hrest
      simp only [run]
      rw [hs.2.2] at h2
      exact ⟨h1, h2⟩

theorem length_run (actions : List Action) :
    ∀ l : Loader, (run actions l).1.length = actions.count .call := by
  induction actions with
  | nil => intro l; rfl
  | cons a rest ih =>
    intro l
    cases a with
    | call => simp [run, ih]
    | event e => simp [run, ih]

end SellAuth

namespace SellAuth

/-- C17: on a page where the capability is absent and no load was started, any number of calls
of `initializeSellAuth`, interleaved in any way with the passing of time and with `load` and
`error` events of scripts (so before and after the load settles), as long as the capability
does not appear: every call returns the same promise, so all callers settle together; at
most one script element is inserted in total, exactly one when there is at least one call and
no script tag of the loader was present, and none when such a tag was present. -/
theorem initializeSellAuth_single_load (l : Loader) (actions : List Action)
    (habsent : l.sellAuthEmbed = false) (hnone : l.sellAuthLoadPromise = none)
    (hquiet : ∀ a ∈ actions, a ≠ .event .capabilityAppears) :
    (run actions l).1.length = actions.count .call ∧
    (∀ p ∈ (run actions l).1, ∀ q ∈ (run actions l).1, p = q) ∧
    (run actions l).2.scripts.length ≤ l.scripts.length + 1 ∧
    ((run actions l).1 ≠ [] → l.scripts.any (fun s => s.matchesSelector) = false →
      (run actions l).2.scripts.length = l.scripts.length + 1) ∧
    (l.scripts.any (fun s => s.matchesSelector) = true →
      (run actions l).2.scripts = l.scripts) := by
  obtain ⟨⟨promise, h1⟩, h2⟩ := run_not_started actions l habsent hnone hquiet
  refine ⟨length_run actions l, ?_, ?_, ?_, ?_⟩
  · intro p hp q hq
    rw [h1 p hp, h1 q hq]
  · split at h2
    · omega
    · rw [h2]
      omega
  · intro hne hany
    rw [if_pos ⟨hne, hany⟩] at h2
    exact h2
  · intro hany
    rw [if_neg (by simp [hany])] at h2
    exact h2

theorem initializeSellAuth_single_load_witness :
    (Loader.fresh 0 []).sellAuthEmbed = false ∧
    (Loader.fresh 0 []).sellAuthLoadPromise = none ∧
    (∀ a ∈ threeCalls, a ≠ .event .capabilityAppears) ∧
    (run threeCalls (Loader.fresh 0 [])).1 = [0, 0, 0] ∧
    (run threeCalls (Loader.fresh 0 [])).2.scripts.length = 1 ∧
    (∀ p ∈ (run threeCalls (Loader.fresh 0 [])).1,
      ∀ q ∈ (run threeCalls (Loader.fresh 0 [])).1, p = q) :=
  ⟨rfl, rfl, by decide, by decide, by decide,
    (initializeSellAuth_single_load (Loader.fresh 0 []) threeCalls rfl rfl (by decide)).2.1⟩

/-- C18: with the clock of the model in milliseconds and a capability that never appears, on
a freshly loaded page. If a script tag of the loader exists, no script is inserted and the
promise is pending for the first 9999 ms and rejected with `SellAuth script timeout` from
10000 ms on. If none exists, a script is inserted and the promise stays pending until the
script fires an event; `k` ms after its `load` event the promise is pending for `k < 5000`
and rejected with `SellAuth embed not initialized` from 5000 ms on; on its `error` event the
promise is rejected at once with `Failed to load SellAuth script`, a message different from
both timeout messages. On none of these paths is the promise resolved. -/
theorem load_promise_rejects (now : Nat) (scripts : List Script) (j k : Nat) :
    (scripts.any (fun s => s.matchesSelector) = true →
      (initializeSellAuth (Loader.fresh now scripts)).2.scripts = scripts ∧
      ((initializeSellAuth (Loader.fresh now scripts)).2.ticks k).stateOf
          (initializeSellAuth (Loader.fresh now scripts)).1 =
        some (if k < 10000 then .pending else .rejected "SellAuth script timeout")) ∧
    (scripts.any (fun s => s.matchesSelector) = false →
      (initializeSellAuth (Loader.fresh now scripts)).2.scripts =
        scripts ++ [{ matchesSelector := true,
                      promise := some (initializeSellAuth (Loader.fresh now scripts)).1 }] ∧
      ((initializeSellAuth (Loader.fresh now scripts)).2.ticks j).stateOf
          (initializeSellAuth (Loader.fresh now scripts)).1 = some .pending ∧
      ((((initializeSellAuth (Loader.fresh now scripts)).2.ticks j).step
          (.scriptLoad scripts.length)).ticks k).stateOf
          (initializeSellAuth (Loader.fresh now scripts)).1 =
        some (if k < 5000 then .pending else .rejected "SellAuth embed not initialized") ∧
      ((((initializeSellAuth (Loader.fresh now scripts)).2.ticks j).step
          (.scriptError scripts.length)).ticks k).stateOf
          (initializeSellAuth (Loader.fresh now scripts)).1 =
        some (.rejected "Failed to load SellAuth script")) ∧
    "Failed to load SellAuth script" ≠ "SellAuth script timeout" ∧
    "Failed to load SellAuth script" ≠ "SellAuth embed not initialized" := by
  refine ⟨?_, ?_, by decide, by decide⟩
  · intro h
    rw [initializeSellAuth_fresh_existing now scripts h]
    exact ⟨rfl, stateOf_ticks_polling now 10000 _ scripts k (by omega)⟩
  · intro h
    rw [initializeSellAuth_fresh_absent now scripts h]
    refine ⟨rfl, ?_, ?_, ?_⟩
    · show ((Loader.inserted now scripts).ticks j).stateOf 0 = _
      rw [ticks_inserted]
      rfl
    · show ((((Loader.inserted now scripts).ticks j).step _).ticks k).stateOf 0 = _
      rw [ticks_inserted, step_scriptLoad_inserted]
      exact stateOf_ticks_polling (now + j) 5000 _ _ k (by omega)
    · show ((((Loader.inserted now scripts).ticks j).step _).ticks k).stateOf 0 = _
      rw [ticks_inserted, step_scriptError_inserted, ticks_failed]
      rfl

theorem load_promise_rejects_witness :
    ([foreignLoaderTag].any (fun s => s.matchesSelector) = true) ∧
    (([] : List Script).any (fun s => s.matchesSelector) = false) ∧
    ((initializeSellAuth (Loader.fresh 0 [foreignLoaderTag])).2.ticks 9999).stateOf
        (initializeSellAuth (Loader.fresh 0 [foreignLoaderTag])).1 =
      some (if 9999 < 10000 then .pending else .rejected "SellAuth script timeout") ∧
    ((((initializeSellAuth (Loader.fresh 0 [])).2.ticks 30).step
        (.scriptLoad ([] : List Script).length)).ticks 5000).stateOf
        (initializeSellAuth (Loader.fresh 0 [])).1 =
      some (if 5000 < 5000 then .pending else .rejected "SellAuth embed not initialized") :=
  ⟨by decide, by decide,
    ((load_promise_rejects 0 [foreignLoaderTag] 0 9999).1 (by decide)).2,
    ((load_promise_rejects 0 [] 30 5000).2.1 (by decide)).2.2.1⟩

end SellAuth

namespace Login

/-! ## Validation of the one-time code -/

theorem isDigit_of_mem_flatten (otp : List (List Char)) (h : ∀ box ∈ otp, BoxValid box) :
    ∀ c ∈ otp.flatten, c.isDigit = true := by
  intro c hc
  obtain ⟨box, hbox, hmem⟩ := List.mem_flatten.mp hc
  exact (h box hbox).2 c hmem

theorem handleOtpSubmit_of_length_ne (f : Form) (verify : VerifyResponse)
    (session : Option String) (fetch : FetchResult) (dbError : Option String)
    (h : f.otp.flatten.length ≠ 6) :
    LoginModal.handleOtpSubmit verify session fetch f =
      rejectedForm f "Please enter the complete 6-digit code" ∧
    LoginPage.handleOtpSubmit verify dbError f =
      rejectedForm f "Please enter the complete 6-digit code" := by
  constructor
  · unfold LoginModal.handleOtpSubmit LoginModal.handleOtpSubmitTry
    simp only [h, ne_eq, not_false_eq_true, if_true]
    simp [finishOtpSubmit, rejectedForm]
  · unfold LoginPage.handleOtpSubmit LoginPage.handleOtpSubmitTry
    simp only [h, ne_eq, not_false_eq_true, if_true]
    simp [finishOtpSubmit, rejectedForm]

/-- C20: in both `LoginModal` and `LoginPage`, on every form the handler can be given (each
code box is an input with `pattern="[0-9]*"` and `maxLength="1"` in a form that is validated
before its `submit` event, so every box is empty or holds one decimal digit),
`handleOtpSubmit` reports the validation error and sends no request whenever the entered code
is not exactly six decimal digits: the form ends with the error message, the boxes emptied and
the list of requests as it was. Whatever the boxes hold, a code whose length is not 6, such as
`12345`, is rejected in this way before any request. -/
theorem handleOtpSubmit_rejects_incomplete_code (f : Form) (verify : VerifyResponse)
    (session : Option String) (fetch : FetchResult) (dbError : Option String) :
    (f.otp.flatten.length ≠ 6 →
      LoginModal.handleOtpSubmit verify session fetch f =
        rejectedForm f "Please enter the complete 6-digit code" ∧
      LoginPage.handleOtpSubmit verify dbError f =
        rejectedForm f "Please enter the complete 6-digit code") ∧
    ((∀ box ∈ f.otp, BoxValid box) → ¬ SixDigits f.otp.flatten →
      LoginModal.handleOtpSubmit verify session fetch f =
        rejectedForm f "Please enter the complete 6-digit code" ∧
      LoginPage.handleOtpSubmit verify dbError f =
        rejectedForm f "Please enter the complete 6-digit code") ∧
    (rejectedForm f "Please enter the complete 6-digit code").calls = f.calls := by
  refine ⟨handleOtpSubmit_of_length_ne f verify session fetch dbError, ?_, rfl⟩
  intro hvalid hnot
  apply handleOtpSubmit_of_length_ne f verify session fetch dbError
  intro hlen
  exact hnot ⟨hlen, isDigit_of_mem_flatten f.otp hvalid⟩

theorem handleOtpSubmit_rejects_incomplete_code_witness :
    (otpForm [['1'], ['2'], ['3'], ['4'], ['5'], []]).otp.flatten = ['1', '2', '3', '4', '5'] ∧
    (∀ box ∈ (otpForm [['1'], ['2'], ['3'], ['4'], ['5'], []]).otp, BoxValid box) ∧
    ¬ SixDigits (otpForm [['1'], ['2'], ['3'], ['4'], ['5'], []]).otp.flatten ∧
    (otpForm [['1'], ['2'], ['3'], ['4'], ['5'], []]).otp.flatten.length ≠ 6 ∧
    (LoginModal.handleOtpSubmit (.data none) none .response
        (otpForm [['1'], ['2'], ['3'], ['4'], ['5'], []]) =
      rejectedForm (otpForm [['1'], ['2'], ['3'], ['4'], ['5'], []])
        "Please enter the complete 6-digit code" ∧
    LoginPage.handleOtpSubmit (.data none) none
        (otpForm [['1'], ['2'], ['3'], ['4'], ['5'], []]) =
      rejectedForm (otpForm [['1'], ['2'], ['3'], ['4'], ['5'], []])
        "Please enter the complete 6-digit code") ∧
    (LoginModal.handleOtpSubmit (.data none) none .response
        (otpForm [['1'], ['2'], ['3'], ['4'], ['5'], []])).calls = [] :=
  ⟨by decide, by decide, by decide, by decide,
    (handleOtpSubmit_rejects_incomplete_code (otpForm [['1'], ['2'], ['3'], ['4'], ['5'], []])
      (.data none) none .response none).2.1 (by decide) (by decide),
    by decide⟩

end Login

namespace Login

/-! ## Requesting the code -/

/-- C21: in both `LoginModal` and `LoginPage`, for a form in the `email` step:
`handleEmailSubmit` with an empty email reports the validation error, sends no request and
leaves the step at `email`; the step is `otp` afterwards exactly when the email is not empty
and the provider answers without error; when the provider answers with an error the step is
still `email`. -/
theorem handleEmailSubmit_step (f : Form) (response : SignInResponse)
    (hstep : f.step = .email) :
    (f.email = "" →
      LoginModal.handleEmailSubmit response f =
        { f with messageType := .error, message := "Please enter your email address",
                 loading := false } ∧
      LoginPage.handleEmailSubmit response f =
        { f with messageType := .error, message := "Please enter your email address",
                 loading := false }) ∧
    ((LoginModal.handleEmailSubmit response f).step = .otp ↔
      f.email ≠ "" ∧ response = .ok) ∧
    ((LoginPage.handleEmailSubmit response f).step = .otp ↔
      f.email ≠ "" ∧ response = .ok) ∧
    (∀ message : String, response = .error message →
      (LoginModal.handleEmailSubmit response f).step = .email ∧
      (LoginPage.handleEmailSubmit response f).step = .email) := by
  refine ⟨?_, ?_, ?_, ?_⟩
  · intro he
    constructor
    · simp [LoginModal.handleEmailSubmit, LoginModal.handleEmailSubmitTry, he]
    · simp [LoginPage.handleEmailSubmit, LoginPage.handleEmailSubmitTry, he]
  · by_cases he : f.email = ""
    · simp [LoginModal.handleEmailSubmit, LoginModal.handleEmailSubmitTry, he, hstep]
    · cases response <;>
        simp [LoginModal.handleEmailSubmit, LoginModal.handleEmailSubmitTry, he, hstep]
  · by_cases he : f.email = ""
    · simp [LoginPage.handleEmailSubmit, LoginPage.handleEmailSubmitTry, he, hstep]
    · cases response <;>
        simp [LoginPage.handleEmailSubmit, LoginPage.handleEmailSubmitTry, he, hstep]
  · intro message hr
    subst hr
    by_cases he : f.email = ""
    · simp [LoginModal.handleEmailSubmit, LoginModal.handleEmailSubmitTry,
        LoginPage.handleEmailSubmit, LoginPage.handleEmailSubmitTry, he, hstep]
    · simp [LoginModal.handleEmailSubmit, LoginModal.handleEmailSubmitTry,
        LoginPage.handleEmailSubmit, LoginPage.handleEmailSubmitTry, he, hstep]

theorem handleEmailSubmit_step_witness :
    (emailForm "").step = .email ∧ (emailForm "").email = "" ∧
    (LoginModal.handleEmailSubmit .ok (emailForm "")).calls = [] ∧
    (LoginModal.handleEmailSubmit .ok (emailForm "")).step = .email ∧
    ((LoginPage.handleEmailSubmit .ok (emailForm "a@b.com")).step = .otp ↔
      (emailForm "a@b.com").email ≠ "" ∧ SignInResponse.ok = .ok) ∧
    (LoginPage.handleEmailSubmit .ok (emailForm "a@b.com")).calls =
      [.signInWithOtp "a@b.com"] :=
  ⟨rfl, rfl, by decide, by decide,
    (handleEmailSubmit_step (emailForm "a@b.com") .ok rfl).2.2.1, by decide⟩

/-! ## Profile creation after a verified code -/

/-- C22 (the code at the failing input): in `LoginModal`, with the code `123456` verified for a
user and a session present, a `fetch` of `create-user-profile` that rejects puts the form into
its error state: the error message is the message of the rejection, the code boxes are
emptied, `handleLoginSuccess` is not called and no `onClose` timeout is registered. When the
`fetch` gets a response the login is reported as successful, and in `LoginPage` a failed
upsert is only logged. -/
theorem handleOtpSubmit_fails_on_rejected_profile_request :
    LoginModal.handleOtpSubmit (.data (some verifiedUser)) (some "token")
        (.rejected "Failed to fetch") completeOtpForm =
      { rejectedForm completeOtpForm "Failed to fetch" with
        calls := [.verifyOtp "a@b.com" ['1', '2', '3', '4', '5', '6'], .getSession,
                  .createUserProfile "token"] } ∧
    (LoginModal.handleOtpSubmit (.data (some verifiedUser)) (some "token")
        (.rejected "Failed to fetch") completeOtpForm).loginSuccesses = 0 ∧
    (LoginModal.handleOtpSubmit (.data (some verifiedUser)) (some "token")
        (.rejected "Failed to fetch") completeOtpForm).closeTimeouts = [] ∧
    (LoginModal.handleOtpSubmit (.data (some verifiedUser)) (some "token") .response
        completeOtpForm).message = "Successfully logged in!" ∧
    (LoginModal.handleOtpSubmit (.data (some verifiedUser)) (some "token") .response
        completeOtpForm).loginSuccesses = 1 ∧
    (LoginPage.handleOtpSubmit (.data (some verifiedUser)) (some "permission denied")
        completeOtpForm).message = "Successfully logged in!" ∧
    (LoginPage.handleOtpSubmit (.data (some verifiedUser)) (some "permission denied")
        completeOtpForm).messageType = .success ∧
    (LoginPage.handleOtpSubmit (.data (some verifiedUser)) (some "permission denied")
        completeOtpForm).otp = completeOtpForm.otp ∧
    (LoginPage.handleOtpSubmit (.data (some verifiedUser)) (some "permission denied")
        completeOtpForm).logs = ["Error creating user record: permission denied"] := by
  decide

end Login

namespace AuthContext

/-! ## Role resolution and sign-out -/

/-- C23 (as stated, refuted): the role that `fetchUserRole` resolves is not always set, nor
always `customer` or `admin`. For a row whose stored role is `owner` the resolved role is
`owner`, and for a row whose role is null `userRole` is null. -/
theorem fetchUserRole_passes_role_through :
    ¬ (∀ (lookup : RoleLookup) (userId : String) (s : State),
        (fetchUserRole lookup userId s).loading = false ∧
        (fetchUserRole lookup userId s).userRole ≠ none ∧
        ((fetchUserRole lookup userId s).userRole = some "customer" ∨
          (fetchUserRole lookup userId s).userRole = some "admin")) ∧
    (fetchUserRole (.row (some "owner")) "u1" adminState).userRole = some "owner" ∧
    (fetchUserRole (.row none) "u1" adminState).userRole = none := by
  refine ⟨?_, by decide, by decide⟩
  intro h
  have h1 := (h (.row (some "owner")) "u1" adminState).2.2
  revert h1
  decide

/-- C23 (amended): whatever the role lookup answers, `fetchUserRole` completes with `loading`
false and does not touch `user`: the role is `customer` when the lookup returns an error,
rejects or finds no row, and the stored role of the row otherwise, passed through as it is.
So the resolved role is `customer` or `admin` whenever the stored role of the row is one of
the two, and `isAdmin` holds exactly for a row whose stored role is `admin`. -/
theorem fetchUserRole_resolves (lookup : RoleLookup) (userId : String) (s : State) :
    (fetchUserRole lookup userId s).loading = false ∧
    (fetchUserRole lookup userId s).user = s.user ∧
    (fetchUserRole lookup userId s).userRole =
      (match lookup with
        | .row role => role
        | _ => some "customer") ∧
    ((∀ role : Option String, lookup = .row role → ValidRole role) →
      ((fetchUserRole lookup userId s).userRole = some "customer" ∨
        (fetchUserRole lookup userId s).userRole = some "admin")) ∧
    (isAdmin (fetchUserRole lookup userId s) = true ↔ lookup = .row (some "admin")) := by
  cases lookup with
  | error message => simp [fetchUserRole, fetchUserRoleTry, isAdmin]
  | noRow => simp [fetchUserRole, fetchUserRoleTry, isAdmin]
  | rejected message => simp [fetchUserRole, fetchUserRoleTry, isAdmin]
  | row role =>
    refine ⟨rfl, rfl, rfl, ?_, ?_⟩
    · intro h
      exact h role rfl
    · simp [fetchUserRole, fetchUserRoleTry, isAdmin]

theorem fetchUserRole_resolves_witness :
    (∀ role : Option String, RoleLookup.row (some "admin") = .row role → ValidRole role) ∧
    ((fetchUserRole (.row (some "admin")) "u1" adminState).userRole = some "customer" ∨
      (fetchUserRole (.row (some "admin")) "u1" adminState).userRole = some "admin") ∧
    (fetchUserRole (.error "timeout") "u1" adminState).userRole = some "customer" :=
  ⟨fun role h => by
      have h1 : some "admin" = role := RoleLookup.row.inj h
      rw [← h1]
      exact Or.inr rfl,
    (fetchUserRole_resolves (.row (some "admin")) "u1" adminState).2.2.2.1 (fun role h => by
      have h1 : some "admin" = role := RoleLookup.row.inj h
      rw [← h1]
      exact Or.inr rfl),
    by decide⟩

/-- C24: `signOut` sets `user` and `userRole` to null and returns `{ error: null }` when the
provider accepts the sign-out; when the provider answers with an error, or the call rejects,
`signOut` returns that error and `user` and `userRole` are as before. In every case the call
returns. -/
theorem signOut_clears_on_success (s : State) (message : String) :
    ((signOut .ok s).1 = none ∧ (signOut .ok s).2.user = none ∧
      (signOut .ok s).2.userRole = none) ∧
    ((signOut (.error message) s).1 = some message ∧
      (signOut (.error message) s).2.user = s.user ∧
      (signOut (.error message) s).2.userRole = s.userRole) ∧
    ((signOut (.rejected message) s).1 = some message ∧
      (signOut (.rejected message) s).2.user = s.user ∧
      (signOut (.rejected message) s).2.userRole = s.userRole) ∧
    (∀ response : SignOutResponse,
      ((signOut response s).2.user = none ∧ (signOut response s).2.userRole = none) ↔
        (response = .ok ∨ (s.user = none ∧ s.userRole = none))) := by
  refine ⟨⟨rfl, rfl, rfl⟩, ⟨rfl, rfl, rfl⟩, ⟨rfl, rfl, rfl⟩, ?_⟩
  intro response
  cases response <;> simp [signOut]

end AuthContext

namespace ReviewModal

/-! ## The review form -/

/-- C25 (the code at the failing input): user `u1` chooses product `p1`, for which the purchase
check answers true, then switches the select back to `General Review` and submits. The effect
on `productId` does not run the check for the empty value, so `verifiedPurchase` is still
true, and the review is inserted with `product_id` null and `verified_purchase` true. -/
theorem general_review_keeps_verified_flag :
    (reach generalAfterProduct (initial (some Login.verifiedUser))).productId = "" ∧
    (reach generalAfterProduct (initial (some Login.verifiedUser))).verifiedPurchase = true ∧
    (handleSubmit none (reach generalAfterProduct (initial (some Login.verifiedUser)))).requests =
      [.checkVerifiedPurchase "u1" "p1",
       .insertReview
         { user_id := "u1", product_id := none, rating := 5, comment := "Great service",
           author := "Ana", verified_purchase := true }] := by
  decide

/-- C26 (as stated, refuted): a gateway error while submitting a review is not shown with its
message. For the filled-in form and the error `permission denied` the toast of `handleSubmit`
reads `Error submitting review. Please try again.`, which does not end with the message. -/
theorem review_error_toast_is_generic :
    ¬ (∀ (message : String) (f : Form) (fields : List (String × String))
        (d : AdminDashboard.Dashboard), Submittable f →
          LastToastEndsWith (handleSubmit (some message) f).toasts message ∧
          LastToastEndsWith (AdminDashboard.handleProductSubmit (some message) fields d).toasts
            message) := by
  intro h
  have h1 := (h "permission denied" filledForm [] AdminDashboard.newProductDashboard
    (by decide)).1
  revert h1
  decide

theorem lastToastEndsWith_append (toasts : List Toast) (lead message : String) :
    LastToastEndsWith (toasts ++ [{ message := lead ++ message, type := .error }])
      message := by
  unfold LastToastEndsWith
  rw [List.getLast?_concat]
  refine ⟨rfl, ?_⟩
  unfold EndsWith
  rw [String.toList, String.toList, String.data_append]
  exact List.suffix_append _ _

/-- C26 (amended): for every gateway error returned while saving a product, whether the
product is updated or inserted, `handleProductSubmit` shows an error toast `Error saving
product: ` followed by the message of the error, so the toast ends with that message. For a
gateway error returned while submitting a review, `handleSubmit` shows the error toast `Error
submitting review. Please try again.` and writes the error to the console only. -/
theorem product_error_toast_ends_with_message (message : String)
    (fields : List (String × String)) (d : AdminDashboard.Dashboard) (f : Form) :
    (AdminDashboard.handleProductSubmit (some message) fields d).toasts =
      d.toasts ++ [{ message := "Error saving product: " ++ message, type := .error }] ∧
    LastToastEndsWith (AdminDashboard.handleProductSubmit (some message) fields d).toasts
      message ∧
    (Submittable f →
      (handleSubmit (some message) f).toasts =
        f.toasts ++
          [{ message := "Error submitting review. Please try again.", type := .error }] ∧
      (handleSubmit (some message) f).logs =
        f.logs ++ ["Error submitting review: " ++ message]) := by
  have htoasts : (AdminDashboard.handleProductSubmit (some message) fields d).toasts =
      d.toasts ++ [{ message := "Error saving product: " ++ message, type := .error }] := by
    unfold AdminDashboard.handleProductSubmit AdminDashboard.handleProductSubmitTry
    cases d.editingProduct <;> rfl
  refine ⟨htoasts, ?_, ?_⟩
  · rw [htoasts]
    exact lastToastEndsWith_append d.toasts "Error saving product: " message
  · intro hs
    obtain ⟨hu, hr, hc, ha⟩ := hs
    cases huser : f.user with
    | none => exact absurd huser hu
    | some user =>
      simp [handleSubmit, handleSubmitTry, showToast, huser, hr, hc, ha]

theorem product_error_toast_ends_with_message_witness :
    Submittable filledForm ∧
    (AdminDashboard.handleProductSubmit (some "permission denied") []
        AdminDashboard.newProductDashboard).toasts =
      [{ message := "Error saving product: permission denied", type := .error }] ∧
    (handleSubmit (some "permission denied") filledForm).toasts =
      filledForm.toasts ++
        [{ message := "Error submitting review. Please try again.", type := .error }] :=
  ⟨by decide, by decide,
    ((product_error_toast_ends_with_message "permission denied" []
      AdminDashboard.newProductDashboard filledForm).2.2 (by decide)).1⟩

end ReviewModal

namespace ReviewModal

theorem rating_checkVerifiedPurchase (result : CheckResult) (f : Form) :
    (checkVerifiedPurchase result f).rating = f.rating := by
  unfold checkVerifiedPurchase
  cases f.user with
  | none => rfl
  | some user =>
    simp only
    split
    · rfl
    · cases result <;> rfl

theorem rating_selectProduct (value : String) (result : CheckResult) (f : Form) :
    (selectProduct value result f).rating = f.rating := by
  unfold selectProduct productIdEffect
  split
  · rfl
  · split
    · exact rating_checkVerifiedPurchase result _
    · rfl

theorem rating_handleSubmit_le (insertError : Option String) (f : Form) :
    (handleSubmit insertError f).rating ≤ f.rating := by
  unfold handleSubmit
  cases f.user with
  | none => exact Nat.le_refl _
  | some user =>
    simp only
    split
    · exact Nat.le_refl _
    · split
      · exact Nat.le_refl _
      · split
        · exact Nat.le_refl _
        · cases insertError with
          | none => exact Nat.zero_le _
          | some message => exact Nat.le_refl _

theorem rating_apply_le (c : Control) (f : Form) (h : f.rating ≤ 5) :
    (c.apply f).rating ≤ 5 := by
  cases c with
  | star index =>
    have hlt := index.isLt
    show index.val + 1 ≤ 5
    omega
  | comment text => exact h
  | authorName text => exact h
  | product value result =>
    show (selectProduct value result f).rating ≤ 5
    rw [rating_selectProduct]
    exact h
  | close =>
    show (handleClose f).rating ≤ 5
    unfold handleClose
    split
    · exact h
    · exact Nat.zero_le _
  | submit insertError =>
    exact Nat.le_trans (rating_handleSubmit_le insertError f) h

theorem rating_reach_le (controls : List Control) :
    ∀ f : Form, f.rating ≤ 5 → (reach controls f).rating ≤ 5 := by
  induction controls with
  | nil => intro f h; exact h
  | cons c rest ih =>
    intro f h
    exact ih (c.apply f) (rating_apply_le c f h)

/-- C27: in every state of the form reached from the mounted form through its controls (the
five star buttons, the comment and name inputs, the product select, close and submit),
`handleSubmit` either sends nothing or sends exactly one insert, and it sends the insert only
when a user is signed in, with that user's id, a rating from 1 to 5, and the trimmed comment
and trimmed author name, both non-empty. With a rating of 0 or a comment that is blank after
trimming it sends nothing and shows an error toast. -/
theorem handleSubmit_inserts_valid_review (user : Option Login.AuthUser)
    (controls : List Control) (insertError : Option String) :
    ((handleSubmit insertError (reach controls (initial user))).requests =
        (reach controls (initial user)).requests ∨
      ∃ (u : Login.AuthUser) (row : Review),
        (handleSubmit insertError (reach controls (initial user))).requests =
          (reach controls (initial user)).requests ++ [.insertReview row] ∧
        (reach controls (initial user)).user = some u ∧ row.user_id = u.id ∧
        row.rating = (reach controls (initial user)).rating ∧
        1 ≤ row.rating ∧ row.rating ≤ 5 ∧
        row.comment = trim (reach controls (initial user)).comment ∧ row.comment ≠ "" ∧
        row.author = trim (reach controls (initial user)).authorName ∧ row.author ≠ "") ∧
    ((reach controls (initial user)).rating = 0 ∨
        trim (reach controls (initial user)).comment = "" →
      (handleSubmit insertError (reach controls (initial user))).requests =
        (reach controls (initial user)).requests ∧
      ∃ message : String,
        (handleSubmit insertError (reach controls (initial user))).toasts =
          (reach controls (initial user)).toasts ++ [{ message := message, type := .error }]) := by
  have hle : (reach controls (initial user)).rating ≤ 5 :=
    rating_reach_le controls (initial user) (Nat.zero_le _)
  generalize reach controls (initial user) = f at hle ⊢
  cases hu : f.user with
  | none =>
    refine ⟨Or.inl ?_, fun _ => ⟨?_, "Please log in to submit a review", ?_⟩⟩ <;>
      simp [handleSubmit, hu, showToast]
  | some u =>
    by_cases hr : f.rating = 0
    · refine ⟨Or.inl ?_, fun _ => ⟨?_, "Please select a rating", ?_⟩⟩ <;>
        simp [handleSubmit, hu, hr, showToast]
    · by_cases hc : trim f.comment = ""
      · refine ⟨Or.inl ?_, fun _ => ⟨?_, "Please write a comment", ?_⟩⟩ <;>
          simp [handleSubmit, hu, hr, hc, showToast]
      · by_cases ha : trim f.authorName = ""
        · refine ⟨Or.inl ?_, fun h => ?_⟩
          · simp [handleSubmit, hu, hr, hc, ha, showToast]
          · rcases h with h | h
            · exact absurd h hr
            · exact absurd h hc
        · refine ⟨Or.inr ⟨u,
            { user_id := u.id
              product_id := if f.productId = "" then none else some f.productId
              rating := f.rating
              comment := trim f.comment
              author := trim f.authorName
              verified_purchase := f.verifiedPurchase }, ?_, rfl, rfl, rfl, ?_, hle, rfl, hc,
            rfl, ha⟩, fun h => ?_⟩
          · cases insertError <;>
              simp [handleSubmit, handleSubmitTry, hu, hr, hc, ha, showToast]
          · show 1 ≤ f.rating
            omega
          · rcases h with h | h
            · exact absurd h hr
            · exact absurd h hc

theorem handleSubmit_inserts_valid_review_witness :
    ((reach [.star 2, .comment "   "] (initial (some Login.verifiedUser))).rating = 0 ∨
      trim (reach [.star 2, .comment "   "] (initial (some Login.verifiedUser))).comment = "") ∧
    (handleSubmit none
        (reach [.star 2, .comment "   "] (initial (some Login.verifiedUser)))).requests =
      (reach [.star 2, .comment "   "] (initial (some Login.verifiedUser))).requests ∧
    (handleSubmit none filledForm).requests =
      [.insertReview
        { user_id := "u1", product_id := none, rating := 5, comment := "Great service",
          author := "Ana", verified_purchase := false }] :=
  ⟨by decide,
    ((handleSubmit_inserts_valid_review (some Login.verifiedUser) [.star 2, .comment "   "]
      none).2 (by decide)).1,
    by decide⟩

end ReviewModal

namespace CartContext

/-! ## The write of `addToCart` and its result -/

theorem loadCartItems_trace (selectOk : Bool) (w : World) (user : User)
    (hu : w.user = some user) :
    (loadCartItems selectOk w).calls = w.calls ++ [.select user.id] ∧
    (loadCartItems selectOk w).gateway = w.gateway ∧
    (selectOk = false → (loadCartItems selectOk w).cartItems = w.cartItems) := by
  cases selectOk <;> simp [loadCartItems, hu, request, Gateway.apply]

theorem addToCart_eq_expectedWrite (w : World) (user : User) (writeOk reloadOk : Bool)
    (productId : Nat) (variantId : Option Nat) (quantity : Int) (hu : w.user = some user) :
    addToCart writeOk reloadOk productId variantId quantity w =
      if writeOk then
        (.ok true, loadCartItems reloadOk
          (request true (expectedWrite user productId variantId quantity w) w).2)
      else
        (.ok false, (request false (expectedWrite user productId variantId quantity w) w).2) := by
  unfold expectedWrite
  cases hf : w.cartItems.find?
      (fun item => decide (item.product_id = productId ∧ item.variant_id = variantId)) with
  | some existingItem =>
    exact addToCart_found w writeOk reloadOk user productId variantId quantity existingItem
      hu hf
  | none =>
    exact addToCart_not_found w writeOk reloadOk user productId variantId quantity hu hf

/-- C28: for an authenticated user, whether or not the gateway accepts the requests,
`addToCart(productId, variantId, quantity)` sends exactly one write: the update of the first
cached line item with that product and variant (null matching only null) to its quantity plus
`quantity` when the cache has such an item, and otherwise the insert of the row
(user, productId, variantId, quantity). The store changes by that write alone, when it is
accepted, and not at all when it is rejected. -/
theorem addToCart_single_write (w : World) (user : User) (writeOk reloadOk : Bool)
    (productId : Nat) (variantId : Option Nat) (quantity : Int) (hu : w.user = some user) :
    (newCalls w (addToCart writeOk reloadOk productId variantId quantity w).2).filter
        GatewayCall.isWrite =
      [expectedWrite user productId variantId quantity w] ∧
    (expectedWrite user productId variantId quantity w).isWrite = true ∧
    (addToCart writeOk reloadOk productId variantId quantity w).2.gateway =
      (if writeOk then w.gateway.apply (expectedWrite user productId variantId quantity w)
       else w.gateway) := by
  have hwrite : (expectedWrite user productId variantId quantity w).isWrite = true := by
    unfold expectedWrite
    split <;> rfl
  rw [addToCart_eq_expectedWrite w user writeOk reloadOk productId variantId quantity hu]
  cases writeOk with
  | false =>
    refine ⟨?_, hwrite, rfl⟩
    simp only [newCalls, request, Bool.false_eq_true, if_false, List.drop_left]
    simp [hwrite]
  | true =>
    have hu1 : (request true (expectedWrite user productId variantId quantity w) w).2.user =
        some user := hu
    obtain ⟨h1, h2, _⟩ := loadCartItems_trace reloadOk _ user hu1
    refine ⟨?_, hwrite, ?_⟩
    · simp only [newCalls, if_true, h1]
      simp only [request, List.append_assoc, List.drop_left]
      rw [List.cons_append, List.nil_append, List.filter_cons, hwrite, if_pos rfl,
        List.filter_cons]
      rfl
    · simp only [if_true, h2]
      rfl

theorem addToCart_single_write_witness :
    sharedStoreWorld.user = some { id := 1 } ∧
    expectedWrite { id := 1 } 1 none 3 sharedStoreWorld = .update 1 5 ∧
    (newCalls sharedStoreWorld (addToCart true true 1 none 3 sharedStoreWorld).2).filter
        GatewayCall.isWrite =
      [expectedWrite { id := 1 } 1 none 3 sharedStoreWorld] ∧
    (addToCart true true 1 none 3 sharedStoreWorld).2.gateway.cart_items =
      [{ id := 3, user_id := 1, product_id := 2, variant_id := some 7, quantity := 1 },
       { id := 2, user_id := 2, product_id := 1, variant_id := none, quantity := 4 },
       { id := 1, user_id := 1, product_id := 1, variant_id := none, quantity := 5 }] :=
  ⟨rfl, by decide,
    (addToCart_single_write sharedStoreWorld { id := 1 } true true 1 none 3 rfl).1,
    by decide⟩

/-- C29: for an authenticated user `addToCart` returns `true` when the gateway accepts its
write and `false` when it rejects it, whatever happens to the reload. When the write is
accepted and the reload fails the cache is what it was before the call: for the signed-in user
with an empty cart, `addToCart(1, null, 1)` then returns `true`, the row is persisted and the
cache is still empty. -/
theorem addToCart_returns_write_outcome (w : World) (user : User) (writeOk reloadOk : Bool)
    (productId : Nat) (variantId : Option Nat) (quantity : Int) (hu : w.user = some user) :
    (addToCart writeOk reloadOk productId variantId quantity w).1 = .ok writeOk ∧
    (addToCart true false productId variantId quantity w).2.cartItems = w.cartItems ∧
    (addToCart true false 1 none 1 signedInWorld).1 = .ok true ∧
    (addToCart true false 1 none 1 signedInWorld).2.cartItems = [] ∧
    (addToCart true false 1 none 1 signedInWorld).2.gateway.cart_items =
      [{ id := 1, user_id := 1, product_id := 1, variant_id := none, quantity := 1 }] := by
  refine ⟨?_, ?_, rfl, by decide, by decide⟩
  · rw [addToCart_eq_expectedWrite w user writeOk reloadOk productId variantId quantity hu]
    cases writeOk <;> rfl
  · rw [addToCart_eq_expectedWrite w user true false productId variantId quantity hu]
    have hu1 : (request true (expectedWrite user productId variantId quantity w) w).2.user =
        some user := hu
    simp only [if_true]
    exact (loadCartItems_trace false _ user hu1).2.2 rfl

theorem addToCart_returns_write_outcome_witness :
    signedInWorld.user = some { id := 1 } ∧
    (addToCart false true 2 (some 7) 1 signedInWorld).1 = .ok false ∧
    (addToCart true false 2 (some 7) 1 signedInWorld).2.cartItems = signedInWorld.cartItems :=
  ⟨rfl,
    (addToCart_returns_write_outcome signedInWorld { id := 1 } false true 2 (some 7) 1 rfl).1,
    (addToCart_returns_write_outcome signedInWorld { id := 1 } true false 2 (some 7) 1
      rfl).2.1⟩

end CartContext

namespace SellAuth

/-! ## A failed load -/

theorem stateOf_settle_rejected (l : Loader) (p q : Nat) (s : PromiseState) (message : String)
    (h : l.stateOf q = some (.rejected message)) :
    (l.settle p s).stateOf q = some (.rejected message) := by
  unfold Loader.settle
  split
  · rename_i hp
    have hne : p ≠ q := by
      intro hpq
      subst hpq
      unfold Loader.stateOf at h
      rw [h] at hp
      exact absurd hp (by simp)
    unfold Loader.stateOf at h ⊢
    simp only
    rw [List.getElem?_set_ne hne]
    exact h
  · exact h

theorem stateOf_runTask_rejected (l : Loader) (t : Timer) (q : Nat) (message : String)
    (h : l.stateOf q = some (.rejected message)) :
    (l.runTask t).stateOf q = some (.rejected message) := by
  unfold Loader.runTask
  cases t.task with
  | check promise =>
    simp only
    split
    · exact stateOf_settle_rejected _ _ _ _ _ h
    · exact h
  | deadline promise interval message1 =>
    simp only
    split
    · exact h
    · exact stateOf_settle_rejected _ _ _ _ _ h

theorem stateOf_fire_rejected (l : Loader) (t : Timer) (q : Nat) (message : String)
    (h : l.stateOf q = some (.rejected message)) :
    (l.fire t).stateOf q = some (.rejected message) := by
  unfold Loader.fire
  split
  · cases t.period with
    | some period => exact stateOf_runTask_rejected _ t q message h
    | none => exact stateOf_runTask_rejected _ t q message h
  · exact h

theorem stateOf_foldl_fire_rejected (ts : List Timer) (q : Nat) (message : String) :
    ∀ l : Loader, l.stateOf q = some (.rejected message) →
      (ts.foldl Loader.fire l).stateOf q = some (.rejected message) := by
  induction ts with
  | nil => intro l h; exact h
  | cons t rest ih =>
    intro l h
    exact ih (l.fire t) (stateOf_fire_rejected l t q message h)

theorem stateOf_step_rejected (l : Loader) (e : Event) (q : Nat) (message : String)
    (h : l.stateOf q = some (.rejected message)) :
    (l.step e).stateOf q = some (.rejected message) := by
  cases e with
  | tick =>
    show (l.tick).stateOf q = _
    unfold Loader.tick
    exact stateOf_foldl_fire_rejected _ q message _ h
  | scriptLoad index =>
    simp only [Loader.step]
    split
    · exact h
    · exact h
  | scriptError index =>
    simp only [Loader.step]
    split
    · exact stateOf_settle_rejected _ _ _ _ _ h
    · exact h
  | capabilityAppears => exact h
  | capabilityRemoved => exact h

theorem run_keeps_rejected (actions : List Action) :
    ∀ (l : Loader) (promise : Nat) (message : String), l.sellAuthEmbed = false →
      l.sellAuthLoadPromise = some promise →
      l.stateOf promise = some (.rejected message) →
      (∀ a ∈ actions, a ≠ .event .capabilityAppears) →
      (run actions l).2.stateOf promise = some (.rejected message) := by
  induction actions with
  | nil =>
    intro l promise message _ _ h _
    exact h
  | cons a rest ih =>
    intro l promise message habsent hstored hrej hquiet
    have hrest : ∀ b ∈ rest, b ≠ .event .capabilityAppears :=
      fun b hb => hquiet b (List.mem_cons_of_mem _ hb)
    cases a with
    | call =>
      have hcall := initializeSellAuth_started l promise habsent hstored
      simp only [run, hcall]
      exact ih l promise message habsent hstored hrej hrest
    | event e =>
      have he : e ≠ .capabilityAppears := by
        intro h
        exact hquiet (.event e) (List.mem_cons_self _ _) (by rw [h])
      have hs := samePage_step l e he habsent
      simp only [run]
      exact ih (l.step e) promise message (hs.1.trans habsent) (hs.2.1.trans hstored)
        (stateOf_step_rejected l e promise message hrej) hrest

/-- C30: once the promise stored by `initializeSellAuth` is rejected, with whatever message
(a timeout or the load error), a call made while the capability is absent returns that promise
and changes nothing; and over any later sequence of calls, milliseconds and script events in
which the capability does not appear, every call returns that same promise, the promise stays
rejected, and the script elements of the page stay as they are: no script is inserted and the
load is not started again. -/
theorem failed_load_is_not_retried (l : Loader) (promise : Nat) (message : String)
    (actions : List Action) (habsent : l.sellAuthEmbed = false)
    (hstored : l.sellAuthLoadPromise = some promise)
    (hrejected : l.stateOf promise = some (.rejected message))
    (hquiet : ∀ a ∈ actions, a ≠ .event .capabilityAppears) :
    initializeSellAuth l = (promise, l) ∧
    (∀ q ∈ (run actions l).1, q = promise) ∧
    (run actions l).2.scripts = l.scripts ∧
    (run actions l).2.sellAuthLoadPromise = some promise ∧
    (run actions l).2.stateOf promise = some (.rejected message) := by
  obtain ⟨h1, h2⟩ := run_started actions l promise habsent hstored hquiet
  exact ⟨initializeSellAuth_started l promise habsent hstored, h1, h2.2.2,
    h2.2.1.trans hstored,
    run_keeps_rejected actions l promise message habsent hstored hrejected hquiet⟩

theorem failed_load_is_not_retried_witness :
    ((initializeSellAuth (Loader.fresh 0 [])).2.step (.scriptError 0)).sellAuthEmbed = false ∧
    ((initializeSellAuth (Loader.fresh 0 [])).2.step (.scriptError 0)).sellAuthLoadPromise =
      some 0 ∧
    ((initializeSellAuth (Loader.fresh 0 [])).2.step (.scriptError 0)).stateOf 0 =
      some (.rejected "Failed to load SellAuth script") ∧
    (∀ a ∈ laterCalls, a ≠ .event .capabilityAppears) ∧
    (run laterCalls ((initializeSellAuth (Loader.fresh 0 [])).2.step (.scriptError 0))).1 =
      [0, 0] ∧
    (run laterCalls
        ((initializeSellAuth (Loader.fresh 0 [])).2.step (.scriptError 0))).2.scripts =
      ((initializeSellAuth (Loader.fresh 0 [])).2.step (.scriptError 0)).scripts :=
  ⟨by decide, by decide, by decide, by decide, by decide,
    (failed_load_is_not_retried
      ((initializeSellAuth (Loader.fresh 0 [])).2.step (.scriptError 0)) 0
      "Failed to load SellAuth script" laterCalls (by decide) (by decide) (by decide)
      (by decide)).2.2.1⟩

end SellAuth
